import Mathlib

/-!
Verification of the genomics DAO layer of the raw-data-repository.

This file shallowly embeds the query and update logic of
`rdr_service/dao/genomics_dao.py` over an explicit relational snapshot:
each database table is a `List` of row structures, SQL joins become list
binds, `WHERE` clauses become boolean filters, `LEFT JOIN ... IS NULL`
anti-joins become negated existentials over the joined table, and
`SELECT DISTINCT` becomes `List.dedup`.  SQL three-valued comparisons
against `NULL` are modelled with `Option` and comparison helpers that
return `false` whenever either side is `NULL`.

The ORM model classes (`rdr_service/model/genomics.py`,
`participant_enums.py`) are not part of the sources; their row schemas
are modelled from the spec's data-model section, restricted to the
columns the embedded queries touch.  Enumerations defined in
`rdr_service/genomic_enums.py` are translated from that file.

Datetimes are modelled as integers (`Time := Int`); a `timedelta(days=d)`
is the integer `d` in the same unit, which preserves all comparisons the
embedded code performs.
-/

namespace RdrGenomics

/-- Datetimes, modelled as integers; only ordering and day arithmetic matter. -/
abbrev Time := Int

/-! ## Enumerations

`WithdrawalStatus`, `SuspensionStatus`, `DeceasedStatus` and
`QuestionnaireStatus` live in `rdr_service/participant_enums.py`, which is
not under the sources; they are modelled from the spec with the members the
embedded queries compare against plus one representative alternative. -/

/-- Modelled from the spec: participant withdrawal status. -/
inductive WithdrawalStatus
  | NOT_WITHDRAWN
  | NO_USE
  deriving DecidableEq, Repr

/-- Modelled from the spec: participant suspension status. -/
inductive SuspensionStatus
  | NOT_SUSPENDED
  | NO_CONTACT
  deriving DecidableEq, Repr

/-- Modelled from the spec: participant deceased status. -/
inductive DeceasedStatus
  | UNSET
  | PENDING
  | APPROVED
  deriving DecidableEq, Repr

/-- Modelled from the spec: questionnaire/consent response status. -/
inductive QuestionnaireStatus
  | UNSET
  | SUBMITTED
  | SUBMITTED_NO_CONSENT
  | SUBMITTED_NOT_SURE
  | SUBMITTED_INVALID
  deriving DecidableEq, Repr

/-- Modelled from the spec: consent file type (`ConsentType`). -/
inductive ConsentType
  | PRIMARY
  | GROR
  deriving DecidableEq, Repr

/-- Modelled from the spec: consent file sync status (`ConsentSyncStatus`). -/
inductive ConsentSyncStatus
  | NEEDS_CORRECTING
  | READY_FOR_SYNC
  | SYNC_COMPLETE
  deriving DecidableEq, Repr

/-- `GenomicWorkflowState` from `genomic_enums.py` (all members). -/
inductive GenomicWorkflowState
  | UNSET | WITHDRAWN | AW0 | AW1 | AW1F_PRE | AW1F_POST | AW2
  | GC_DATA_FILES_MISSING | AW2_FAIL
  | W1 | W2 | W3 | AW1C | AW1CF_PRE | AW1CF_POST | RHP_START | W4 | W4F
  | RHP_RPT_READY | RHP_RPT_PENDING_DELETE | RHP_RPT_DELETED
  | RHP_RPT_ACCESSED | CVL_READY
  | GEM_RPT_READY | GEM_RPT_PENDING_DELETE | GEM_RPT_DELETED
  | GEM_RPT_ACCESSED | GEM_READY | A1 | A2 | A2F | A3
  | AW0_READY | IGNORE | CONTROL_SAMPLE
  | LR_PENDING | LR_REJECTED | LR_ACCEPTED
  | EXTRACT_REQUESTED
  | CVL_RPT_PENDING_DELETE | CVL_RPT_DELETED
  deriving DecidableEq, Repr

/-- `GenomicQcStatus` from `genomic_enums.py`. -/
inductive GenomicQcStatus
  | UNSET | PASS | FAIL
  deriving DecidableEq, Repr

/-- `GenomicReportState` from `genomic_enums.py`. -/
inductive GenomicReportState
  | UNSET
  | GEM_RPT_READY | GEM_RPT_PENDING_DELETE | GEM_RPT_DELETED
  | PGX_RPT_READY
  | HDR_RPT_UNINFORMATIVE | HDR_RPT_POSITIVE
  | CVL_RPT_PENDING_DELETE | CVL_RPT_DELETED
  deriving DecidableEq, Repr

/-- `ResultsModuleType` from `genomic_enums.py`. -/
inductive ResultsModuleType
  | UNSET | HDRV1 | PGXV1
  deriving DecidableEq, Repr

/-- `GenomicSubProcessResult` from `genomic_enums.py`. -/
inductive GenomicSubProcessResult
  | UNSET | SUCCESS | NO_FILES | INVALID_FILE_NAME | INVALID_FILE_STRUCTURE
  | ERROR | MISSING_CONFIG | NO_RESULTS
  deriving DecidableEq, Repr

/-- The two `GenomicJob` members `get_past_due_samples` dispatches on
(`RECONCILE_CVL_PGX_RESULTS` / `RECONCILE_CVL_HDR_RESULTS`); any other
job id raises a `KeyError` in the source and is outside this embedding. -/
inductive PastDueResultType
  | RECONCILE_CVL_HDR_RESULTS
  | RECONCILE_CVL_PGX_RESULTS
  deriving DecidableEq, Repr

/-! ## Genome-type configuration constants

`config.GENOME_TYPE_ARRAY` / `config.GENOME_TYPE_WGS` come from
`rdr_service/config.py`, which is not under the sources. -/

/-- Modelled from the spec: the array genome-type constant supplied by config. -/
def GENOME_TYPE_ARRAY : String := "aou_array"

/-- Modelled from the spec: the WGS genome-type constant supplied by config. -/
def GENOME_TYPE_WGS : String := "aou_wgs"

/-! ## Row schemas (modelled from the spec's data model, §3)

Only the columns read or written by the embedded DAO methods appear. -/

/-- Modelled from the spec: one `ParticipantSummary` row. -/
structure ParticipantSummary where
  participantId : Nat
  withdrawalStatus : WithdrawalStatus
  withdrawalAuthored : Option Time
  suspensionStatus : SuspensionStatus
  deceasedStatus : DeceasedStatus
  consentForStudyEnrollment : QuestionnaireStatus
  consentForStudyEnrollmentAuthored : Option Time
  consentForGenomicsROR : QuestionnaireStatus
  consentForGenomicsRORAuthored : Option Time
  deriving DecidableEq, Repr

/-- Modelled from the spec: one `GenomicSetMember` row (the Sample Ledger). -/
structure GenomicSetMember where
  id : Nat
  participantId : Nat
  biobankId : String
  sampleId : Option String
  collectionTubeId : String
  genomeType : String
  genomicWorkflowState : GenomicWorkflowState
  genomicWorkflowStateStr : String
  genomicWorkflowStateModifiedTime : Option Time
  ignoreFlag : Nat
  participantOrigin : String
  informingLoopReadyFlag : Nat
  informingLoopReadyFlagModified : Option Time
  replatedMemberId : Option Nat
  qcStatus : GenomicQcStatus
  gcManifestSampleSource : String
  diversionPouchSiteFlag : Nat
  blockResults : Nat
  gcSiteId : String
  gemA1ManifestJobRunId : Option Nat
  cvlW1ilHdrJobRunId : Option Nat
  cvlW1ilPgxJobRunId : Option Nat
  deriving DecidableEq, Repr

/-- Modelled from the spec: one `GenomicGCValidationMetrics` row. -/
structure GenomicGCValidationMetrics where
  id : Nat
  genomicSetMemberId : Nat
  ignoreFlag : Nat
  processingStatus : String
  sexConcordance : String
  drcSexConcordance : String
  drcFpConcordance : String
  idatRedPath : Option String
  idatGreenPath : Option String
  idatRedMd5Path : Option String
  idatGreenMd5Path : Option String
  vcfPath : Option String
  vcfTbiPath : Option String
  vcfMd5Path : Option String
  hfVcfPath : Option String
  hfVcfTbiPath : Option String
  hfVcfMd5Path : Option String
  cramPath : Option String
  cramMd5Path : Option String
  craiPath : Option String
  deriving DecidableEq, Repr

/-- Modelled from the spec: one `ConsentFile` row. -/
structure ConsentFile where
  participant_id : Nat
  type : ConsentType
  sync_status : ConsentSyncStatus
  deriving DecidableEq, Repr

/-- Modelled from the spec: one `GenomicInformingLoop` event row. -/
structure GenomicInformingLoop where
  id : Nat
  participant_id : Nat
  event_type : String
  module_type : String
  decision_value : Option String
  event_authored_time : Option Time
  created : Time
  deriving DecidableEq, Repr

/-- Modelled from the spec: one `GenomicMemberReportState` row. -/
structure GenomicMemberReportState where
  id : Nat
  participant_id : Nat
  genomic_set_member_id : Nat
  genomic_report_state : GenomicReportState
  report_revision_number : Option Nat
  event_authored_time : Option Time
  created : Time
  sample_id : Option String
  module : String
  deriving DecidableEq, Repr

/-- Modelled from the spec: one `GenomicResultViewed` row. -/
structure GenomicResultViewed where
  id : Nat
  participant_id : Nat
  sample_id : Option String
  module_type : String
  event_authored_time : Option Time
  created : Time
  deriving DecidableEq, Repr

/-- Modelled from the spec: one `GenomicSampleSwapMember` row. -/
structure GenomicSampleSwapMember where
  id : Nat
  genomic_set_member_id : Nat
  genomic_sample_swap : Nat
  deriving DecidableEq, Repr

/-- Modelled from the spec: one `GenomicAppointmentEvent` row. -/
structure GenomicAppointmentEvent where
  id : Nat
  participant_id : Nat
  module_type : String
  event_type : String
  appointment_id : Option Nat
  event_authored_time : Option Time
  appointment_timestamp : Option Time
  appointment_timezone : Option String
  source : Option String
  location : Option String
  contact_number : Option String
  language : Option String
  cancellation_reason : Option String
  deriving DecidableEq, Repr

/-- Modelled from the spec: one `GenomicAW1Raw` manifest-mirror row. -/
structure GenomicAW1Raw where
  id : Nat
  biobank_id : String
  sample_id : String
  collection_tube_id : String
  test_name : String
  ignore_flag : Nat
  deriving DecidableEq, Repr

/-- Modelled from the spec: one `GenomicAW2Raw` manifest-mirror row. -/
structure GenomicAW2Raw where
  id : Nat
  biobank_id : String
  sample_id : String
  ignore_flag : Nat
  deriving DecidableEq, Repr

/-- Modelled from the spec: one `GenomicJobRun` row. -/
structure GenomicJobRun where
  id : Nat
  created : Time
  deriving DecidableEq, Repr

/-- Modelled from the spec: one `GenomicW4WRRaw` (final result) raw row. -/
structure GenomicW4WRRaw where
  id : Nat
  sample_id : String
  clinical_analysis_type : ResultsModuleType
  deriving DecidableEq, Repr

/-- Modelled from the spec: one `GenomicW2WRaw` raw row. -/
structure GenomicW2WRaw where
  id : Nat
  sample_id : String
  deriving DecidableEq, Repr

/-- Modelled from the spec: one `GenomicW3SCRaw` (checkpoint) raw row. -/
structure GenomicW3SCRaw where
  id : Nat
  sample_id : String
  deriving DecidableEq, Repr

/-- Modelled from the spec: one `GenomicCVLResultPastDue` row. -/
structure GenomicCVLResultPastDue where
  id : Nat
  sample_id : String
  deriving DecidableEq, Repr

/-- Modelled from the spec: one `GenomicIncident` row; the message column
has a fixed maximum length and the spec gives the incident an advisory
`is_truncated` flag.  The message is a character sequence (Python string). -/
structure GenomicIncident where
  id : Nat
  code : String
  message : List Char
  isTruncated : Bool
  deriving DecidableEq, Repr

/-- The relational snapshot all embedded queries run against. -/
structure Db where
  summaries : List ParticipantSummary
  members : List GenomicSetMember
  metrics : List GenomicGCValidationMetrics
  consentFiles : List ConsentFile
  informingLoops : List GenomicInformingLoop
  reportStates : List GenomicMemberReportState
  resultVieweds : List GenomicResultViewed
  sampleSwapMembers : List GenomicSampleSwapMember
  appointmentEvents : List GenomicAppointmentEvent
  aw1Raw : List GenomicAW1Raw
  aw2Raw : List GenomicAW2Raw
  jobRuns : List GenomicJobRun
  w4wrRaw : List GenomicW4WRRaw
  w2wRaw : List GenomicW2WRaw
  w3scRaw : List GenomicW3SCRaw
  cvlPastDue : List GenomicCVLResultPastDue
  deriving Repr

/-! ## SQL comparison helpers (three-valued `NULL` semantics) -/

/-- SQL `a = b` on nullable values: `NULL` on either side compares false. -/
def optEq {α : Type} [DecidableEq α] : Option α → Option α → Bool
  | some x, some y => x = y
  | _, _ => false

/-- SQL `a < b` on nullable times: `NULL` on either side compares false. -/
def optLt : Option Time → Option Time → Bool
  | some x, some y => x < y
  | _, _ => false

/-- SQL `MAX(col)` aggregate over a group: ignores `NULL`s, `NULL` on an
empty or all-`NULL` group. -/
def sqlMax {α : Type} [LinearOrder α] (l : List (Option α)) : Option α :=
  l.foldl (fun acc x =>
    match acc, x with
    | none, v => v
    | some m, none => some m
    | some m, some v => some (max m v)) none

/-- Python `str.lower()` for the ASCII strings this schema stores. -/
def pyLower (s : String) : String :=
  ⟨s.data.map fun c => if 'A' ≤ c && c ≤ 'Z' then Char.ofNat (c.toNat + 32) else c⟩

/-- SQL `LIKE '%suffix'`: the string ends with the suffix. -/
def pyEndsWith (s suffix : String) : Bool := suffix.data.isSuffixOf s.data

/-- SQLAlchemy `ilike` without wildcards: case-insensitive equality. -/
def ilike (a b : String) : Bool := pyLower a = pyLower b

/-- Python `min(list)` over a nonempty list of times (`none` on `[]`,
where Python would raise `ValueError`). -/
def pyMin : List Time → Option Time
  | [] => none
  | x :: xs => some (xs.foldl min x)

/-! ## GenomicIncidentDao: message truncation (`truncate_value`, `insert`)

`GenomicIncidentDao.truncate_value` and `GenomicIncidentDao.insert` from
`genomics_dao.py`.  The column limit
(`GenomicIncident.message.type.length`) comes from the model class, which
is not under the sources, so it is a parameter here.  Python's
`value[:max_length]` is `List.take` on the character sequence. -/

/-- `GenomicIncidentDao.truncate_value(value, max_length)`: returns the
`(is_truncated, truncated_value)` pair. -/
def truncate_value (value : List Char) (max_length : Nat) : Bool × List Char :=
  if value.length > max_length then (true, value.take max_length)
  else (false, value)

/-- `GenomicIncidentDao.insert(incident)`: truncates the message to the
column limit (logging a warning when truncation happened — the
`is_truncated` component is used only for that log) and stores the
incident.  No field of the incident other than `message` is written. -/
def incident_insert (max_length : Nat) (incident : GenomicIncident) : GenomicIncident :=
  { incident with message := (truncate_value incident.message max_length).2 }

/-! ## GenomicSetMemberDao.get_consent_removal_date

The session query fetches the participant's `ParticipantSummary` row
(`.first()`); the date arithmetic is then pure.  Python returns either the
earliest revoked date or `False`; that result is modelled as
`Option Time` (`none` = "no removal").  A missing summary row would raise
an `AttributeError` in the source, modelled by the outer `Option` of
`get_consent_removal_date`. -/

/-- The `withdraw_dates` list built by `get_consent_removal_date`:
a date is considered when the corresponding consent is not `SUBMITTED`
(resp. the participant is withdrawn) and the authored date is non-null. -/
def consentWithdrawDates (cs : ParticipantSummary) : List Time :=
  (match cs.consentForGenomicsRORAuthored with
    | some t => if cs.consentForGenomicsROR ≠ QuestionnaireStatus.SUBMITTED then [t] else []
    | none => []) ++
  (match cs.consentForStudyEnrollmentAuthored with
    | some t => if cs.consentForStudyEnrollment ≠ QuestionnaireStatus.SUBMITTED then [t] else []
    | none => []) ++
  (match cs.withdrawalAuthored with
    | some t => if cs.withdrawalStatus ≠ WithdrawalStatus.NOT_WITHDRAWN then [t] else []
    | none => [])

/-- The pure tail of `get_consent_removal_date`, applied to the fetched
consent-status row: `min(withdraw_dates)` when nonempty, else the
"no removal" value (`False` in Python, `none` here). -/
def consentRemovalDateOf (cs : ParticipantSummary) : Option Time :=
  pyMin (consentWithdrawDates cs)

/-- `GenomicSetMemberDao.get_consent_removal_date(member)`: fetches the
member's participant summary and computes the earliest removal date. -/
def get_consent_removal_date (db : Db) (member : GenomicSetMember) :
    Option (Option Time) :=
  (db.summaries.find? (fun ps => ps.participantId = member.participantId)).map
    consentRemovalDateOf

/-! ## Raw-manifest ingestion deltas

`GenomicAW1RawDao.get_set_member_deltas` and
`GenomicAW2RawDao.get_aw2_ingestion_deltas` from `genomics_dao.py`.
A `LEFT JOIN t ... WHERE t.id IS NULL` is an anti-join: "no matching row
in `t`".  The source orders results by raw-row id; ordering is not
modelled (the claims concern which rows are returned). -/

/-- `GenomicAW1RawDao.get_set_member_deltas()`: AW1 raw rows with no
`GenomicSetMember` whose `sampleId` equals the raw row's `sample_id`
(outer join on `GenomicSetMember.sampleId == GenomicAW1Raw.sample_id`,
kept when `GenomicSetMember.id IS NULL`), not ignored, and with non-empty
`biobank_id`, `sample_id`, `collection_tube_id` and `test_name`. -/
def get_set_member_deltas (db : Db) : List GenomicAW1Raw :=
  db.aw1Raw.filter fun r =>
    (!db.members.any fun m => optEq m.sampleId (some r.sample_id)) &&
    r.ignore_flag = 0 &&
    r.biobank_id ≠ "" &&
    r.sample_id ≠ "" &&
    r.collection_tube_id ≠ "" &&
    r.test_name ≠ ""

/-- `GenomicAW2RawDao.get_aw2_ingestion_deltas()`: AW2 raw rows inner-joined
to `GenomicSetMember` on `sampleId`, with no `GenomicGCValidationMetrics`
row for that member (anti-join on `genomicSetMemberId`), not ignored,
non-empty `biobank_id`/`sample_id`, and the member not replated.  The
inner join makes the raw row appear once per matching member. -/
def get_aw2_ingestion_deltas (db : Db) : List GenomicAW2Raw :=
  db.aw2Raw.flatMap fun r =>
    (db.members.filter fun m => optEq m.sampleId (some r.sample_id)).flatMap fun m =>
      if (!db.metrics.any fun g => g.genomicSetMemberId = m.id) &&
          r.ignore_flag = 0 &&
          r.biobank_id ≠ "" &&
          r.sample_id ≠ "" &&
          m.replatedMemberId = none
      then [r] else []

/-! ## GenomicSetMemberDao.get_aw2_missing_with_all_files

Members in `GC_DATA_FILES_MISSING` state joined to a non-ignored metrics
row; for the array genome type all seven idat/vcf file-path columns must
be non-null, for WGS all six hard-filtered-VCF/CRAM columns; the query
returns member ids. -/

/-- All seven array file-path columns of a metrics row are non-null. -/
def arrayFilesPresent (g : GenomicGCValidationMetrics) : Bool :=
  g.idatRedPath.isSome && g.idatGreenPath.isSome &&
  g.idatRedMd5Path.isSome && g.idatGreenMd5Path.isSome &&
  g.vcfPath.isSome && g.vcfTbiPath.isSome && g.vcfMd5Path.isSome

/-- All six WGS file-path columns of a metrics row are non-null. -/
def wgsFilesPresent (g : GenomicGCValidationMetrics) : Bool :=
  g.hfVcfPath.isSome && g.hfVcfTbiPath.isSome && g.hfVcfMd5Path.isSome &&
  g.cramPath.isSome && g.cramMd5Path.isSome && g.craiPath.isSome

/-- `GenomicSetMemberDao.get_aw2_missing_with_all_files(genome_type)`. -/
def get_aw2_missing_with_all_files (genome_type : String) (db : Db) : List Nat :=
  db.members.flatMap fun m =>
    (db.metrics.filter fun g => g.genomicSetMemberId = m.id).flatMap fun g =>
      if m.genomicWorkflowState = GenomicWorkflowState.GC_DATA_FILES_MISSING &&
          g.ignoreFlag ≠ 1 &&
          (if genome_type = GENOME_TYPE_ARRAY then
            m.genomeType = GENOME_TYPE_ARRAY && arrayFilesPresent g
          else true) &&
          (if genome_type = GENOME_TYPE_WGS then
            m.genomeType = GENOME_TYPE_WGS && wgsFilesPresent g
          else true)
      then [m.id] else []

/-! ## GenomicSetMemberDao job-run-field / workflow-state updates

`update_member_job_run_id`, `_is_valid_set_member_job_field` and
`update_member_workflow_state` from `genomics_dao.py`.  The Python code
validates a field name with `hasattr(GenomicSetMember, field)`, fetches
each target member with `self.get(m_id)` and writes via `setattr`; a
missing member makes `setattr(None, ...)` raise an `AttributeError`,
which the broad `except` turns into a `GenomicSubProcessResult.ERROR`
return (members updated before the failure stay updated, since each
`self.update` is its own write).  Neither failure path raises an
`InvalidFieldError` or `RecordNotFoundError`; the outcome type below
carries those two constructors only so the claims' vocabulary can be
stated — the embedded code never produces them. -/

/-- Possible outcomes of an update call in the claims' vocabulary.
The source only ever produces `result r` (a returned
`GenomicSubProcessResult` value). -/
inductive UpdateOutcome
  | result (r : GenomicSubProcessResult)
  | raisedInvalidFieldError
  | raisedRecordNotFoundError
  deriving DecidableEq, Repr

/-- The attribute names of the modelled `GenomicSetMember` columns;
stands in for Python's `hasattr(GenomicSetMember, name)` (which accepts
*any* column attribute, not only job-run fields). -/
def memberAttributeNames : List String :=
  ["id", "participantId", "biobankId", "sampleId", "collectionTubeId",
   "genomeType", "genomicWorkflowState", "genomicWorkflowStateStr",
   "genomicWorkflowStateModifiedTime", "ignoreFlag", "participantOrigin",
   "informingLoopReadyFlag", "informingLoopReadyFlagModified",
   "replatedMemberId", "qcStatus", "gcManifestSampleSource",
   "diversionPouchSiteFlag", "blockResults", "gcSiteId",
   "gemA1ManifestJobRunId", "cvlW1ilHdrJobRunId", "cvlW1ilPgxJobRunId"]

/-- `GenomicSetMemberDao._is_valid_set_member_job_field(job_field_name)`:
`job_field_name is not None and hasattr(GenomicSetMember, job_field_name)`. -/
def is_valid_set_member_job_field (job_field_name : Option String) : Bool :=
  match job_field_name with
  | none => false
  | some name => memberAttributeNames.contains name

/-- `setattr(member, field, job_run_id)` for the nullable-integer job-run
columns of the modelled schema; writing any other attribute name is left
as the identity (the source would overwrite arbitrary columns there — no
embedded claim exercises that). -/
def setMemberJobField (m : GenomicSetMember) (field : String) (v : Option Nat) :
    GenomicSetMember :=
  if field = "gemA1ManifestJobRunId" then { m with gemA1ManifestJobRunId := v }
  else if field = "cvlW1ilHdrJobRunId" then { m with cvlW1ilHdrJobRunId := v }
  else if field = "cvlW1ilPgxJobRunId" then { m with cvlW1ilPgxJobRunId := v }
  else m

/-- The member loop inside `update_member_job_run_id`: update each id in
turn; a missing id aborts with `ERROR` (the `AttributeError` path),
keeping the updates already made. -/
def updateMembersLoop (field : String) (job_run_id : Option Nat) :
    List Nat → List GenomicSetMember → UpdateOutcome × List GenomicSetMember
  | [], members => (UpdateOutcome.result GenomicSubProcessResult.SUCCESS, members)
  | m_id :: rest, members =>
    if members.any fun m => m.id = m_id then
      updateMembersLoop field job_run_id rest
        (members.map fun m => if m.id = m_id then setMemberJobField m field job_run_id else m)
    else
      (UpdateOutcome.result GenomicSubProcessResult.ERROR, members)

/-- `GenomicSetMemberDao.update_member_job_run_id(member_ids, job_run_id,
field)` over the member table (a non-list `member_ids` is wrapped into a
list by the source, so the embedding takes a list). -/
def update_member_job_run_id (members : List GenomicSetMember)
    (member_ids : List Nat) (job_run_id : Option Nat) (field : Option String) :
    UpdateOutcome × List GenomicSetMember :=
  match field with
  | none => (UpdateOutcome.result GenomicSubProcessResult.ERROR, members)
  | some f =>
    if is_valid_set_member_job_field (some f) then
      updateMembersLoop f job_run_id member_ids members
    else
      (UpdateOutcome.result GenomicSubProcessResult.ERROR, members)

/-- `GenomicWorkflowState.name` (the denormalized string mirror written by
`update_member_workflow_state`). -/
def workflowStateName : GenomicWorkflowState → String
  | .UNSET => "UNSET" | .WITHDRAWN => "WITHDRAWN" | .AW0 => "AW0"
  | .AW1 => "AW1" | .AW1F_PRE => "AW1F_PRE" | .AW1F_POST => "AW1F_POST"
  | .AW2 => "AW2" | .GC_DATA_FILES_MISSING => "GC_DATA_FILES_MISSING"
  | .AW2_FAIL => "AW2_FAIL" | .W1 => "W1" | .W2 => "W2" | .W3 => "W3"
  | .AW1C => "AW1C" | .AW1CF_PRE => "AW1CF_PRE" | .AW1CF_POST => "AW1CF_POST"
  | .RHP_START => "RHP_START" | .W4 => "W4" | .W4F => "W4F"
  | .RHP_RPT_READY => "RHP_RPT_READY"
  | .RHP_RPT_PENDING_DELETE => "RHP_RPT_PENDING_DELETE"
  | .RHP_RPT_DELETED => "RHP_RPT_DELETED"
  | .RHP_RPT_ACCESSED => "RHP_RPT_ACCESSED" | .CVL_READY => "CVL_READY"
  | .GEM_RPT_READY => "GEM_RPT_READY"
  | .GEM_RPT_PENDING_DELETE => "GEM_RPT_PENDING_DELETE"
  | .GEM_RPT_DELETED => "GEM_RPT_DELETED"
  | .GEM_RPT_ACCESSED => "GEM_RPT_ACCESSED" | .GEM_READY => "GEM_READY"
  | .A1 => "A1" | .A2 => "A2" | .A2F => "A2F" | .A3 => "A3"
  | .AW0_READY => "AW0_READY" | .IGNORE => "IGNORE"
  | .CONTROL_SAMPLE => "CONTROL_SAMPLE" | .LR_PENDING => "LR_PENDING"
  | .LR_REJECTED => "LR_REJECTED" | .LR_ACCEPTED => "LR_ACCEPTED"
  | .EXTRACT_REQUESTED => "EXTRACT_REQUESTED"
  | .CVL_RPT_PENDING_DELETE => "CVL_RPT_PENDING_DELETE"
  | .CVL_RPT_DELETED => "CVL_RPT_DELETED"

/-- `GenomicSetMemberDao.update_member_workflow_state(member, new_state)`:
unconditionally sets the state, its string mirror and the modified time
(`clock.CLOCK.now()`, passed here as `now`). -/
def update_member_workflow_state (member : GenomicSetMember)
    (new_state : GenomicWorkflowState) (now : Time) : GenomicSetMember :=
  { member with
    genomicWorkflowState := new_state
    genomicWorkflowStateStr := workflowStateName new_state
    genomicWorkflowStateModifiedTime := some now }

/-! ## GenomicCVLResultPastDueDao.get_past_due_samples

The per-module CVL day limits (`pgx_time_limit`, `hdr_time_limit`,
`w3sc_extension`) come from the `GENOMIC_CVL_RECONCILE_LIMITS` config
setting; an absent/empty setting returns `[]` immediately. -/

/-- Modelled from the spec: the per-module CVL reconcile day limits
supplied by config. -/
structure CvlLimits where
  pgx_time_limit : Int
  hdr_time_limit : Int
  w3sc_extension : Int
  deriving DecidableEq, Repr

/-- One output row of `get_past_due_samples`. -/
structure PastDueRow where
  genomicSetMemberId : Nat
  sampleId : Option String
  cvlSiteId : String
  resultsType : ResultsModuleType
  deriving DecidableEq, Repr

/-- The W1IL job-run-id column selected for the module
(`result_attributes['w1il_run_id']`). -/
def w1ilRunIdField (result_type : PastDueResultType) (m : GenomicSetMember) :
    Option Nat :=
  match result_type with
  | .RECONCILE_CVL_HDR_RESULTS => m.cvlW1ilHdrJobRunId
  | .RECONCILE_CVL_PGX_RESULTS => m.cvlW1ilPgxJobRunId

/-- The analysis type selected for the module
(`result_attributes['analysis_type']`). -/
def pastDueAnalysisType (result_type : PastDueResultType) : ResultsModuleType :=
  match result_type with
  | .RECONCILE_CVL_HDR_RESULTS => ResultsModuleType.HDRV1
  | .RECONCILE_CVL_PGX_RESULTS => ResultsModuleType.PGXV1

/-- Whether a member passes the whole `get_past_due_samples` filter:
an inner join to the W1IL `GenomicJobRun`, the module-specific deadline
filter (HDR two-tier via the W3SC checkpoint, and HDR additionally
requires no W2W row), and the common filters (non-null W1IL run id, WGS
genome type, no existing past-due row for the sample — both anti-joins on
`sample_id` — no W4WR row of the module's analysis type, non-null
sample id). -/
def pastDuePasses (result_type : PastDueResultType) (now : Time)
    (limits : CvlLimits) (db : Db) (m : GenomicSetMember) : Bool :=
  (db.jobRuns.any fun run =>
    optEq (some run.id) (w1ilRunIdField result_type m) &&
    (match result_type with
      | .RECONCILE_CVL_PGX_RESULTS =>
        run.created < now - limits.pgx_time_limit
      | .RECONCILE_CVL_HDR_RESULTS =>
        (!db.w2wRaw.any fun w => optEq (some w.sample_id) m.sampleId) &&
        (if db.w3scRaw.any fun w => optEq (some w.sample_id) m.sampleId then
          run.created < now - limits.hdr_time_limit - limits.w3sc_extension
        else
          run.created < now - limits.hdr_time_limit))) &&
  (w1ilRunIdField result_type m).isSome &&
  m.genomeType = GENOME_TYPE_WGS &&
  (!db.cvlPastDue.any fun pd => optEq (some pd.sample_id) m.sampleId) &&
  (!db.w4wrRaw.any fun w =>
    optEq (some w.sample_id) m.sampleId &&
    w.clinical_analysis_type = pastDueAnalysisType result_type) &&
  m.sampleId.isSome

/-- `GenomicCVLResultPastDueDao.get_past_due_samples(result_type)`. -/
def get_past_due_samples (result_type : PastDueResultType) (now : Time)
    (cvl_limits : Option CvlLimits) (db : Db) : List PastDueRow :=
  match cvl_limits with
  | none => []
  | some limits =>
    (db.members.filter (pastDuePasses result_type now limits db)).map fun m =>
      { genomicSetMemberId := m.id
        sampleId := m.sampleId
        cvlSiteId := m.gcSiteId
        resultsType := pastDueAnalysisType result_type }

/-! ## GenomicSchedulingDao.get_latest_scheduling_data

The query selects appointment events joined to a per-(participant,
module) `MAX(appointment_id)` grouped subquery (join correlated on
participant and module), to `GenomicSetMember` on participant, and
left-joined to a `%note_available` alias keyed by the group's max
appointment id.  The per-group `MAX(event_authored_time)` subquery is
referenced only in the `WHERE` clause and never join-correlated, so it
enters the `FROM` clause as a cross join: the filter only requires the
event's authored time to equal the max authored time of *some*
(participant, module) group.  `.distinct()` closes the query. -/

/-- The distinct (participant_id, module_type) group keys of the
appointment-event table (the `GROUP BY` of both subqueries). -/
def appointmentGroupKeys (db : Db) : List (Nat × String) :=
  (db.appointmentEvents.map fun e => (e.participant_id, e.module_type)).dedup

/-- `MAX(appointment_id)` of one (participant, module) group. -/
def maxAppointmentIdOfGroup (db : Db) (key : Nat × String) : Option Nat :=
  sqlMax ((db.appointmentEvents.filter fun e =>
    e.participant_id = key.1 && e.module_type = key.2).map fun e => e.appointment_id)

/-- `MAX(event_authored_time)` of one (participant, module) group. -/
def maxAuthoredTimeOfGroup (db : Db) (key : Nat × String) : Option Time :=
  sqlMax ((db.appointmentEvents.filter fun e =>
    e.participant_id = key.1 && e.module_type = key.2).map fun e => e.event_authored_time)

/-- One output row of `get_latest_scheduling_data` (the selected columns;
`module` is `module_type`, `status` is `event_type`). -/
structure SchedulingRow where
  appointment_id : Option Nat
  participant_id : Nat
  module : String
  status : String
  appointment_timestamp : Option Time
  appointment_timezone : Option String
  source : Option String
  location : Option String
  contact_number : Option String
  language : Option String
  cancellation_reason : Option String
  note_available : Bool
  deriving DecidableEq, Repr

/-- Whether an appointment event survives the `WHERE` clause of
`get_latest_scheduling_data`.  The `max_appointment_id` subquery is
correlated to the event's own group; the `max_event_authored_time`
subquery is cross-joined, so its condition is an existential over all
group keys. -/
def schedulingPasses (db : Db) (participant_id : Option Nat)
    (start_date end_date : Option Time) (module : Option String)
    (origin : List String) (e : GenomicAppointmentEvent) : Bool :=
  optEq e.appointment_id
    (maxAppointmentIdOfGroup db (e.participant_id, e.module_type)) &&
  ((appointmentGroupKeys db).any fun key =>
    optEq e.event_authored_time (maxAuthoredTimeOfGroup db key)) &&
  (db.members.any fun m =>
    m.participantId = e.participant_id && origin.contains m.participantOrigin) &&
  (match module with
    | some mo => ilike e.module_type mo
    | none => true) &&
  (match participant_id with
    | some pid => e.participant_id = pid
    | none => true) &&
  (match start_date with
    | some sd =>
      optLt (some sd) e.event_authored_time && optLt e.event_authored_time end_date
    | none => true)

/-- The selected columns for one surviving event, with the
`note_available` flag from the left join against the `%note_available`
alias keyed by the group's max appointment id. -/
def schedulingRowOf (db : Db) (e : GenomicAppointmentEvent) : SchedulingRow :=
  { appointment_id := e.appointment_id
    participant_id := e.participant_id
    module := e.module_type
    status := e.event_type
    appointment_timestamp := e.appointment_timestamp
    appointment_timezone := e.appointment_timezone
    source := e.source
    location := e.location
    contact_number := e.contact_number
    language := e.language
    cancellation_reason := e.cancellation_reason
    note_available :=
      db.appointmentEvents.any fun n =>
        pyEndsWith n.event_type "note_available" &&
        n.participant_id = e.participant_id &&
        n.module_type = e.module_type &&
        optEq n.appointment_id
          (maxAppointmentIdOfGroup db (e.participant_id, e.module_type)) }

/-- `GenomicSchedulingDao.get_latest_scheduling_data(...)`; the
`participant_origin` argument is `None` or a list, and a falsy value
returns `[]` before any query is issued. -/
def get_latest_scheduling_data (db : Db) (participant_id : Option Nat)
    (start_date end_date : Option Time) (module : Option String)
    (participant_origin : Option (List String)) : List SchedulingRow :=
  match participant_origin with
  | none => []
  | some [] => []
  | some origin =>
    ((db.appointmentEvents.filter
        (schedulingPasses db participant_id start_date end_date module origin)).map
      (schedulingRowOf db)).dedup

/-! ## GenomicOutreachDaoV2.get_outreach_data

The DAO instance carries a module list and request-type list (defaulting
to all modules / all types) and derives `report_query_state` from the
`report_state_map` via `get_report_state_query_config`. -/

/-- `GenomicOutreachDaoV2.report_state_map`. -/
def report_state_map : List (String × List GenomicReportState) :=
  [("gem", [GenomicReportState.GEM_RPT_READY,
            GenomicReportState.GEM_RPT_PENDING_DELETE,
            GenomicReportState.GEM_RPT_DELETED]),
   ("pgx", [GenomicReportState.PGX_RPT_READY,
            GenomicReportState.CVL_RPT_PENDING_DELETE,
            GenomicReportState.CVL_RPT_DELETED]),
   ("hdr", [GenomicReportState.HDR_RPT_UNINFORMATIVE,
            GenomicReportState.HDR_RPT_POSITIVE,
            GenomicReportState.CVL_RPT_PENDING_DELETE,
            GenomicReportState.CVL_RPT_DELETED])]

/-- `GenomicOutreachDaoV2.get_report_state_query_config()`: all mapped
states when no module is configured, else the states of each configured
module. -/
def get_report_state_query_config (module : List String) :
    List GenomicReportState :=
  if module = [] then (report_state_map.map Prod.snd).flatten
  else module.flatMap fun mod =>
    report_state_map.flatMap fun kv => if mod = kv.1 then kv.2 else []

/-- The outreach DAO's instance configuration (`self.module`,
`self.req_type`). -/
structure OutreachConfig where
  module : List String
  req_type : List String
  deriving DecidableEq, Repr

/-- The default instance configuration set in `__init__`. -/
def defaultOutreachConfig : OutreachConfig :=
  { module := ["gem", "hdr", "pgx"], req_type := ["result", "informingLoop"] }

/-- `_set_genome_types()` inside `get_outreach_data`: appends the array
genome type when `'gem'` is configured; the WGS branch tests
`if 'hdr' or 'pgx' in self.module`, whose first operand is the truthy
string `'hdr'`, so WGS is appended unconditionally. -/
def setGenomeTypes (module : List String) : List String :=
  (if module.contains "gem" then [GENOME_TYPE_ARRAY] else []) ++ [GENOME_TYPE_WGS]

/-- `GenomicSetMemberDao.base_informing_loop_ready()`: WGS members joined
to their participant summary, a non-ignored metrics row and a GROR
consent file, under the full informing-loop eligibility filter. -/
def base_informing_loop_ready (db : Db) : List GenomicSetMember :=
  db.members.flatMap fun m =>
    db.summaries.flatMap fun ps =>
      db.metrics.flatMap fun g =>
        db.consentFiles.flatMap fun cf =>
          if ps.participantId = m.participantId &&
              g.genomicSetMemberId = m.id &&
              g.ignoreFlag ≠ 1 &&
              cf.participant_id = m.participantId &&
              cf.type = ConsentType.GROR &&
              ilike g.processingStatus "pass" &&
              m.genomeType = GENOME_TYPE_WGS &&
              ps.withdrawalStatus = WithdrawalStatus.NOT_WITHDRAWN &&
              ps.suspensionStatus = SuspensionStatus.NOT_SUSPENDED &&
              ps.deceasedStatus = DeceasedStatus.UNSET &&
              (ilike g.sexConcordance "true" || ilike g.sexConcordance "other") &&
              ilike g.drcSexConcordance "pass" &&
              m.qcStatus = GenomicQcStatus.PASS &&
              ilike m.gcManifestSampleSource "whole blood" &&
              ps.consentForStudyEnrollment = QuestionnaireStatus.SUBMITTED &&
              ps.consentForGenomicsROR = QuestionnaireStatus.SUBMITTED &&
              ilike g.drcFpConcordance "pass" &&
              m.diversionPouchSiteFlag ≠ 1 &&
              m.ignoreFlag ≠ 1 &&
              m.blockResults ≠ 1 &&
              (cf.sync_status = ConsentSyncStatus.READY_FOR_SYNC ||
                cf.sync_status = ConsentSyncStatus.SYNC_COMPLETE)
          then [m] else []

/-- One row of the `decision_loop` query: the selected informing-loop
columns (the literal `'informing_loop_decision'` type tag is carried by
the constructor wrapping this row). -/
structure DecisionRow where
  participant_id : Nat
  module_type : String
  decision_value : Option String
  id : Nat
  deriving DecidableEq, Repr

/-- The `decision_loop` query: informing-loop rows joined to the
participant summary and to a matching set member, filtered, projected to
their selected columns and deduplicated (`distinct`). -/
def decisionLoopRows (cfg : OutreachConfig) (db : Db)
    (genomeTypes : List String) (origin : List String)
    (participant_id : Option Nat) (start_date : Option Time)
    (end_date : Time) : List DecisionRow :=
  (db.informingLoops.flatMap fun il =>
    db.summaries.flatMap fun ps =>
      db.members.flatMap fun m =>
        if ps.participantId = il.participant_id &&
            m.participantId = il.participant_id &&
            genomeTypes.contains m.genomeType &&
            ps.withdrawalStatus = WithdrawalStatus.NOT_WITHDRAWN &&
            ps.suspensionStatus = SuspensionStatus.NOT_SUSPENDED &&
            il.decision_value.isSome &&
            cfg.module.contains il.module_type &&
            il.event_authored_time.isSome &&
            m.ignoreFlag ≠ 1 &&
            origin.contains m.participantOrigin &&
            (match participant_id with
              | some pid => m.participantId = pid
              | none => true) &&
            (match start_date with
              | some sd =>
                (optLt (some sd) il.event_authored_time || sd < il.created) &&
                optLt il.event_authored_time (some end_date)
              | none => true)
        then [{ participant_id := il.participant_id
                module_type := il.module_type
                decision_value := il.decision_value
                id := il.id }]
        else []).dedup

/-- Python `max(loops, key=lambda x: x.id)` (first element wins ties;
`none` on `[]`, where Python would raise `ValueError`). -/
def pyMaxById (l : List DecisionRow) : Option DecisionRow :=
  match l with
  | [] => none
  | x :: xs => some (xs.foldl (fun acc y => if y.id > acc.id then y else acc) x)

/-- `_get_max_decision_loops(decision_loops)` inside `get_outreach_data`:
group the decision rows by participant, then by (case-folded) module,
and keep the row with the maximum `id` in each group.  Python iterates
sets of participant ids / module strings; set iteration is modelled as
`dedup` (the claims only concern output membership). -/
def getMaxDecisionLoops (decision_loops : List DecisionRow) : List DecisionRow :=
  if decision_loops.isEmpty then []
  else
    ((decision_loops.map fun r => r.participant_id).dedup).flatMap fun pid =>
      let participant_loops := decision_loops.filter fun x => x.participant_id = pid
      ((participant_loops.map fun r => r.module_type).dedup).flatMap fun module =>
        (pyMaxById (participant_loops.filter fun x =>
          pyLower x.module_type = pyLower module)).toList

/-- The `ready_loop` query: distinct participant ids of members with the
informing-loop-ready flag set, joined to the `base_informing_loop_ready`
subquery on participant id. -/
def readyLoopRows (db : Db) (origin : List String)
    (participant_id : Option Nat) (start_date : Option Time)
    (end_date : Time) : List Nat :=
  (db.members.flatMap fun m =>
    (base_informing_loop_ready db).flatMap fun sub =>
      if sub.participantId = m.participantId &&
          m.informingLoopReadyFlag = 1 &&
          m.informingLoopReadyFlagModified.isSome &&
          origin.contains m.participantOrigin &&
          (match participant_id with
            | some pid => m.participantId = pid
            | none => true) &&
          (match start_date with
            | some sd =>
              optLt (some sd) m.informingLoopReadyFlagModified &&
              optLt m.informingLoopReadyFlagModified (some end_date)
            | none => true)
      then [m.participantId] else []).dedup

/-- One row of the result queries; `swap` is the left-joined
`GenomicSampleSwapMember` entity (always `none` for viewed rows, whose
query does not select it), and `viewed` distinguishes the
`result_viewed` literal from `result_ready`. -/
structure ResultRow where
  participant_id : Nat
  genomic_report_state : GenomicReportState
  report_revision_number : Option Nat
  swap : Option GenomicSampleSwapMember
  viewed : Bool
  deriving DecidableEq, Repr

/-- The `result_ready_query`: report-state rows joined to the participant
summary and their set member, left-joined to sample-swap members,
filtered on the configured report states, and deduplicated. -/
def resultReadyRows (cfg : OutreachConfig) (db : Db)
    (genomeTypes : List String) (origin : List String)
    (participant_id : Option Nat) (start_date : Option Time)
    (end_date : Time) : List ResultRow :=
  (db.reportStates.flatMap fun rs =>
    db.summaries.flatMap fun ps =>
      db.members.flatMap fun m =>
        (let swaps := db.sampleSwapMembers.filter fun sw =>
            sw.genomic_set_member_id = m.id
          if swaps.isEmpty then [(none : Option GenomicSampleSwapMember)]
          else swaps.map some).flatMap fun sw =>
          if ps.participantId = rs.participant_id &&
              m.id = rs.genomic_set_member_id &&
              genomeTypes.contains m.genomeType &&
              ps.withdrawalStatus = WithdrawalStatus.NOT_WITHDRAWN &&
              ps.suspensionStatus = SuspensionStatus.NOT_SUSPENDED &&
              (get_report_state_query_config cfg.module).contains
                rs.genomic_report_state &&
              rs.event_authored_time.isSome &&
              m.ignoreFlag ≠ 1 &&
              origin.contains m.participantOrigin &&
              (match participant_id with
                | some pid => ps.participantId = pid
                | none => true) &&
              (match start_date with
                | some sd =>
                  (optLt (some sd) rs.event_authored_time || sd < rs.created) &&
                  optLt rs.event_authored_time (some end_date)
                | none => true)
          then [{ participant_id := rs.participant_id
                  genomic_report_state := rs.genomic_report_state
                  report_revision_number := rs.report_revision_number
                  swap := sw
                  viewed := false }]
          else []).dedup

/-- The `result_viewed_query`: result-viewed rows joined to the
participant summary, to the report state matching on sample id and
module, and to that report state's member; deduplicated. -/
def resultViewedRows (cfg : OutreachConfig) (db : Db) (origin : List String)
    (participant_id : Option Nat) (start_date : Option Time)
    (end_date : Time) : List ResultRow :=
  (db.resultVieweds.flatMap fun rv =>
    db.summaries.flatMap fun ps =>
      db.reportStates.flatMap fun rs =>
        db.members.flatMap fun m =>
          if ps.participantId = rv.participant_id &&
              optEq rs.sample_id rv.sample_id &&
              rs.module = rv.module_type &&
              m.id = rs.genomic_set_member_id &&
              ps.withdrawalStatus = WithdrawalStatus.NOT_WITHDRAWN &&
              ps.suspensionStatus = SuspensionStatus.NOT_SUSPENDED &&
              (get_report_state_query_config cfg.module).contains
                rs.genomic_report_state &&
              rv.event_authored_time.isSome &&
              m.ignoreFlag ≠ 1 &&
              origin.contains m.participantOrigin &&
              (match participant_id with
                | some pid => ps.participantId = pid
                | none => true) &&
              (match start_date with
                | some sd =>
                  (optLt (some sd) rv.event_authored_time || sd < rv.created) &&
                  optLt rv.event_authored_time (some end_date)
                | none => true)
          then [{ participant_id := rv.participant_id
                  genomic_report_state := rs.genomic_report_state
                  report_revision_number := rs.report_revision_number
                  swap := none
                  viewed := true }]
          else []).dedup

/-- An element of the list returned by `get_outreach_data`: a latest
decision row, an informing-loop-ready participant, or a result row. -/
inductive OutreachRow
  | decision (r : DecisionRow)
  | ready (participant_id : Nat)
  | result (r : ResultRow)
  deriving DecidableEq, Repr

/-- The participant id an outreach row belongs to. -/
def OutreachRow.pid : OutreachRow → Nat
  | .decision r => r.participant_id
  | .ready p => p
  | .result r => r.participant_id

/-- `GenomicOutreachDaoV2.get_outreach_data(participant_id, start_date,
end_date, participant_origin)`: returns `[]` for a falsy
`participant_origin` before touching the store; otherwise unions the
latest-decision rows, the ready rows and the two result queries,
defaulting `end_date` to `clock.CLOCK.now()` (passed here as `now`). -/
def get_outreach_data (cfg : OutreachConfig) (db : Db) (now : Time)
    (participant_id : Option Nat) (start_date : Option Time)
    (end_date : Option Time) (participant_origin : Option (List String)) :
    List OutreachRow :=
  match participant_origin with
  | none => []
  | some [] => []
  | some origin =>
    let end_date := end_date.getD now
    let genomeTypes := setGenomeTypes cfg.module
    let informing_loops :=
      if cfg.req_type.contains "informingLoop" then
        (getMaxDecisionLoops
            (decisionLoopRows cfg db genomeTypes origin participant_id
              start_date end_date)).map OutreachRow.decision ++
        (readyLoopRows db origin participant_id start_date end_date).map
          OutreachRow.ready
      else []
    let results :=
      if cfg.req_type.contains "result" then
        (resultReadyRows cfg db genomeTypes origin participant_id start_date
            end_date).map OutreachRow.result ++
        (resultViewedRows cfg db origin participant_id start_date
            end_date).map OutreachRow.result
      else []
    informing_loops ++ results

/-- `GenomicInformingLoopDao.build_latest_decision_query(module)`: the
self-anti-join selecting informing-loop decision rows for the module with
no later-authored decision row for the same participant and module
(the outer join matches only when both authored times are non-null and
strictly ordered; rows with no match survive the `IS NULL` filter). -/
def build_latest_decision_query (module : String)
    (loops : List GenomicInformingLoop) : List GenomicInformingLoop :=
  loops.filter fun il =>
    il.module_type = module &&
    il.event_type = "informing_loop_decision" &&
    !(loops.any fun later =>
      later.participant_id = il.participant_id &&
      later.module_type = module &&
      optLt il.event_authored_time later.event_authored_time &&
      later.event_type = "informing_loop_decision")

/-! ## Shared helper lemmas -/

theorem optEq_some_right_iff {α : Type} [DecidableEq α] (a : Option α) (x : α) :
    optEq a (some x) = true ↔ a = some x := by
  cases a <;> simp [optEq]

theorem optEq_some_left_iff {α : Type} [DecidableEq α] (b : Option α) (x : α) :
    optEq (some x) b = true ↔ b = some x := by
  cases b <;> simp [optEq, eq_comm]

theorem optEq_iff {α : Type} [DecidableEq α] (a b : Option α) :
    optEq a b = true ↔ ∃ x, a = some x ∧ b = some x := by
  cases a <;> cases b <;> simp [optEq, eq_comm]

theorem optLt_iff (a b : Option Time) :
    optLt a b = true ↔ ∃ x y, a = some x ∧ b = some y ∧ x < y := by
  cases a <;> cases b <;> simp [optLt]

theorem foldl_min_mem (xs : List Time) (x : Time) :
    xs.foldl min x ∈ x :: xs := by
  induction xs generalizing x with
  | nil => simp
  | cons y ys ih =>
    have h := ih (min x y)
    rcases min_choice x y with hc | hc <;> rw [hc] at h <;>
      simp only [List.foldl_cons, hc] <;> simp at h ⊢ <;> tauto

theorem foldl_min_le (xs : List Time) (x : Time) :
    ∀ t ∈ x :: xs, xs.foldl min x ≤ t := by
  induction xs generalizing x with
  | nil => intro t ht; simp at ht; simp [ht]
  | cons y ys ih =>
    intro t ht
    simp only [List.foldl_cons]
    simp only [List.mem_cons] at ht
    have hhead : ys.foldl min (min x y) ≤ min x y := ih (min x y) (min x y) (by simp)
    rcases ht with rfl | rfl | ht
    · exact le_trans hhead (min_le_left _ _)
    · exact le_trans hhead (min_le_right _ _)
    · exact ih (min x y) t (by simp [ht])

theorem pyMin_eq_some_iff (l : List Time) (d : Time) :
    pyMin l = some d ↔ d ∈ l ∧ ∀ t ∈ l, d ≤ t := by
  cases l with
  | nil => simp [pyMin]
  | cons x xs =>
    simp only [pyMin, Option.some.injEq]
    constructor
    · rintro rfl
      exact ⟨foldl_min_mem xs x, foldl_min_le xs x⟩
    · rintro ⟨hmem, hle⟩
      exact le_antisymm (foldl_min_le xs x d hmem)
        (hle _ (foldl_min_mem xs x))

theorem pyMin_eq_none_iff (l : List Time) : pyMin l = none ↔ l = [] := by
  cases l <;> simp [pyMin]

end RdrGenomics

namespace RdrGenomics

/-! ## C10 -/

/-- C10: for every combination of the other arguments, both
`get_outreach_data` and `get_latest_scheduling_data` return the empty
list whenever the participant-origin allow-list argument is `None` or
empty, without querying the store (the result is `[]` for every store). -/
theorem c10_empty_origin_short_circuits :
    (∀ (cfg : OutreachConfig) (db : Db) (now : Time) (participant_id : Option Nat)
        (start_date end_date : Option Time),
      get_outreach_data cfg db now participant_id start_date end_date none = [] ∧
      get_outreach_data cfg db now participant_id start_date end_date (some []) = []) ∧
    (∀ (db : Db) (participant_id : Option Nat) (start_date end_date : Option Time)
        (module : Option String),
      get_latest_scheduling_data db participant_id start_date end_date module none = [] ∧
      get_latest_scheduling_data db participant_id start_date end_date module (some []) = []) :=
  ⟨fun _ _ _ _ _ _ => ⟨rfl, rfl⟩, fun _ _ _ _ _ => ⟨rfl, rfl⟩⟩

/-! ## C8 -/

/-- A concrete incident whose message (2 characters) exceeds a 1-character
column limit. -/
def c8Incident : GenomicIncident :=
  { id := 1, code := "file_error", message := ['a', 'b'], isTruncated := false }

/-- C8 counterexample: the claim says a message strictly longer than the
column limit is stored truncated "with `is_truncated = True` recorded on
the incident".  `GenomicIncidentDao.insert` truncates the message but
only logs the truncation flag as a warning — no field of the stored
incident records it: here the stored incident still carries
`isTruncated = false` although its message was truncated. -/
theorem c8_counterexample :
    (incident_insert 1 c8Incident).message = ['a'] ∧
    c8Incident.message.length > 1 ∧
    (incident_insert 1 c8Incident).isTruncated = false := by
  decide

/-- C8 amended: `insert` never fails on message size — a message strictly
longer than the column limit is stored truncated to exactly the limit
(and `truncate_value` reports the truncation, which the DAO only logs),
a message at or under the limit is stored verbatim (with `truncate_value`
reporting no truncation) — but no truncation flag is recorded on the
stored incident, whose fields other than `message` are unchanged. -/
theorem c8_truncation (max_length : Nat) (incident : GenomicIncident) :
    (incident.message.length > max_length →
      (incident_insert max_length incident).message =
        incident.message.take max_length ∧
      (incident_insert max_length incident).message.length = max_length ∧
      (truncate_value incident.message max_length).1 = true) ∧
    (incident.message.length ≤ max_length →
      (incident_insert max_length incident).message = incident.message ∧
      (truncate_value incident.message max_length).1 = false) ∧
    (incident_insert max_length incident).isTruncated = incident.isTruncated ∧
    (incident_insert max_length incident).id = incident.id ∧
    (incident_insert max_length incident).code = incident.code := by
  by_cases h : incident.message.length > max_length
  · refine ⟨fun _ => ⟨?_, ?_, ?_⟩, fun h2 => absurd h2 (by omega), rfl, rfl, rfl⟩
    · simp [incident_insert, truncate_value, h]
    · simp [incident_insert, truncate_value, h, List.length_take]
      omega
    · simp [truncate_value, h]
  · refine ⟨fun h2 => absurd h2 (by omega), fun _ => ⟨?_, ?_⟩, rfl, rfl, rfl⟩
    · simp [incident_insert, truncate_value, h]
    · simp [truncate_value, h]

/-- C8 witness: the amended theorem applied to a long and to a short
message. -/
theorem c8_truncation_witness :
    ((incident_insert 1 c8Incident).message = c8Incident.message.take 1 ∧
      (incident_insert 1 c8Incident).message.length = 1 ∧
      (truncate_value c8Incident.message 1).1 = true) ∧
    ((incident_insert 5 c8Incident).message = c8Incident.message ∧
      (truncate_value c8Incident.message 5).1 = false) :=
  ⟨(c8_truncation 1 c8Incident).1 (by decide),
   (c8_truncation 5 c8Incident).2.1 (by decide)⟩

/-! ## C6 -/

/-- The claim's notion of an applicable ("actually revoked") removal
date: a GROR-consent-revoked authored time, a primary-consent-revoked
authored time, or a withdrawal authored time, each considered only when
the consent status is not `SUBMITTED` (resp. the withdrawal status is
not `NOT_WITHDRAWN`) and the authored date is non-null. -/
def revokedAt (cs : ParticipantSummary) (t : Time) : Prop :=
  (cs.consentForGenomicsROR ≠ QuestionnaireStatus.SUBMITTED ∧
    cs.consentForGenomicsRORAuthored = some t) ∨
  (cs.consentForStudyEnrollment ≠ QuestionnaireStatus.SUBMITTED ∧
    cs.consentForStudyEnrollmentAuthored = some t) ∨
  (cs.withdrawalStatus ≠ WithdrawalStatus.NOT_WITHDRAWN ∧
    cs.withdrawalAuthored = some t)

theorem mem_consentWithdrawDates (cs : ParticipantSummary) (t : Time) :
    t ∈ consentWithdrawDates cs ↔ revokedAt cs t := by
  rcases cs with ⟨pid, ws, wa, ss, ds, pe, pa, rr, ra⟩
  cases wa <;> cases pa <;> cases ra <;>
    by_cases hr : rr = QuestionnaireStatus.SUBMITTED <;>
    by_cases hp : pe = QuestionnaireStatus.SUBMITTED <;>
    by_cases hw : ws = WithdrawalStatus.NOT_WITHDRAWN <;>
    simp_all [consentWithdrawDates, revokedAt, eq_comm]

/-- C6: `get_consent_removal_date` returns the earliest among the
GROR-consent-revoked, primary-consent-revoked and withdrawal authored
times, considering only those actually revoked (status not `SUBMITTED`,
resp. not `NOT_WITHDRAWN`, with a non-null authored date); when none are
revoked it returns the "no removal" value (`False` in the source,
`none` here).  In particular, with GROR revoked at `t1`, primary revoked
at `t2 < t1` and withdrawal at `t3 > t1`, it returns `t2`.  The summary
row `cs` is the one the session query fetches for the member. -/
theorem c6_consent_removal_date (db : Db) (member : GenomicSetMember)
    (cs : ParticipantSummary)
    (hfound : db.summaries.find?
      (fun ps => ps.participantId = member.participantId) = some cs) :
    (get_consent_removal_date db member = some none ↔ ∀ t, ¬ revokedAt cs t) ∧
    (∀ d, get_consent_removal_date db member = some (some d) ↔
      revokedAt cs d ∧ ∀ t, revokedAt cs t → d ≤ t) ∧
    (∀ t1 t2 t3 : Time, t2 < t1 → t1 < t3 →
      consentRemovalDateOf
        { participantId := 1
          withdrawalStatus := WithdrawalStatus.NO_USE
          withdrawalAuthored := some t3
          suspensionStatus := SuspensionStatus.NOT_SUSPENDED
          deceasedStatus := DeceasedStatus.UNSET
          consentForStudyEnrollment := QuestionnaireStatus.SUBMITTED_NO_CONSENT
          consentForStudyEnrollmentAuthored := some t2
          consentForGenomicsROR := QuestionnaireStatus.SUBMITTED_NO_CONSENT
          consentForGenomicsRORAuthored := some t1 } = some t2) := by
  have hbase : get_consent_removal_date db member = some (consentRemovalDateOf cs) := by
    simp [get_consent_removal_date, hfound]
  refine ⟨?_, ?_, ?_⟩
  · rw [hbase]
    simp only [Option.some.injEq, consentRemovalDateOf, pyMin_eq_none_iff]
    rw [List.eq_nil_iff_forall_not_mem]
    constructor
    · intro h t ht
      exact h t ((mem_consentWithdrawDates cs t).mpr ht)
    · intro h t ht
      exact h t ((mem_consentWithdrawDates cs t).mp ht)
  · intro d
    rw [hbase]
    simp only [Option.some.injEq, consentRemovalDateOf, pyMin_eq_some_iff]
    constructor
    · rintro ⟨hmem, hle⟩
      exact ⟨(mem_consentWithdrawDates cs d).mp hmem,
        fun t ht => hle t ((mem_consentWithdrawDates cs t).mpr ht)⟩
    · rintro ⟨hmem, hle⟩
      exact ⟨(mem_consentWithdrawDates cs d).mpr hmem,
        fun t ht => hle t ((mem_consentWithdrawDates cs t).mp ht)⟩
  · intro t1 t2 t3 h21 h13
    have h1 : min t1 t2 = t2 := min_eq_right h21.le
    have h2 : min t2 t3 = t2 := min_eq_left (le_of_lt (lt_trans h21 h13))
    simp [consentRemovalDateOf, consentWithdrawDates, pyMin, h1, h2]

/-- A summary with GROR revoked at 30, primary revoked at 20 and
withdrawal at 40; the removal date must be 20. -/
def c6Summary : ParticipantSummary :=
  { participantId := 5
    withdrawalStatus := WithdrawalStatus.NO_USE
    withdrawalAuthored := some 40
    suspensionStatus := SuspensionStatus.NOT_SUSPENDED
    deceasedStatus := DeceasedStatus.UNSET
    consentForStudyEnrollment := QuestionnaireStatus.SUBMITTED_NO_CONSENT
    consentForStudyEnrollmentAuthored := some 20
    consentForGenomicsROR := QuestionnaireStatus.SUBMITTED_NO_CONSENT
    consentForGenomicsRORAuthored := some 30 }

/-- The empty snapshot, shared by the concrete instances below. -/
def emptyDb : Db :=
  { summaries := [], members := [], metrics := [], consentFiles := []
    informingLoops := [], reportStates := [], resultVieweds := []
    sampleSwapMembers := [], appointmentEvents := [], aw1Raw := []
    aw2Raw := [], jobRuns := [], w4wrRaw := [], w2wRaw := [], w3scRaw := []
    cvlPastDue := [] }

/-- A baseline member row; concrete instances override the relevant
fields. -/
def baseMember : GenomicSetMember :=
  { id := 0, participantId := 0, biobankId := "", sampleId := none
    collectionTubeId := "", genomeType := "", genomicWorkflowState := .UNSET
    genomicWorkflowStateStr := "", genomicWorkflowStateModifiedTime := none
    ignoreFlag := 0, participantOrigin := "", informingLoopReadyFlag := 0
    informingLoopReadyFlagModified := none, replatedMemberId := none
    qcStatus := .UNSET, gcManifestSampleSource := "", diversionPouchSiteFlag := 0
    blockResults := 0, gcSiteId := "", gemA1ManifestJobRunId := none
    cvlW1ilHdrJobRunId := none, cvlW1ilPgxJobRunId := none }

/-- C6 witness: `get_consent_removal_date` on the concrete store picks 20. -/
theorem c6_witness :
    get_consent_removal_date { emptyDb with summaries := [c6Summary] }
      { baseMember with id := 1, participantId := 5 } = some (some 20) :=
  ((c6_consent_removal_date { emptyDb with summaries := [c6Summary] }
      { baseMember with id := 1, participantId := 5 } c6Summary (by decide)).2.1
    20).mpr
    ⟨Or.inr (Or.inl ⟨by decide, by decide⟩),
     by
       intro t ht
       rcases ht with ⟨_, h⟩ | ⟨_, h⟩ | ⟨_, h⟩
       · rw [show c6Summary.consentForGenomicsRORAuthored = some 30 from rfl] at h
         injection h with h
         linarith
       · rw [show c6Summary.consentForStudyEnrollmentAuthored = some 20 from rfl] at h
         injection h with h
         linarith
       · rw [show c6Summary.withdrawalAuthored = some 40 from rfl] at h
         injection h with h
         linarith⟩

/-! ## C4 -/

theorem mem_if_singleton {α : Type} (a b : α) (c : Bool) :
    a ∈ (if c then [b] else []) ↔ c = true ∧ a = b := by
  cases c <;> simp

/-- C4 amended: the ingestion-delta computations are keyed as the code
joins them — `sample_id` for both families.  An AW1 raw row is a delta
exactly when its `biobank_id`, `sample_id`, `collection_tube_id` and
`test_name` are all non-empty, it is not ignored, and no set member's
`sampleId` equals the row's `sample_id`.  An AW2 raw row is a delta
exactly when its `biobank_id` and `sample_id` are non-empty, it is not
ignored, and some non-replated set member matches its `sample_id` while
no validation-metrics row exists for that member. -/
theorem c4_ingestion_deltas :
    (∀ (db : Db) (r : GenomicAW1Raw),
      r ∈ get_set_member_deltas db ↔
        r ∈ db.aw1Raw ∧ r.ignore_flag = 0 ∧ r.biobank_id ≠ "" ∧
        r.sample_id ≠ "" ∧ r.collection_tube_id ≠ "" ∧ r.test_name ≠ "" ∧
        ¬ ∃ m ∈ db.members, m.sampleId = some r.sample_id) ∧
    (∀ (db : Db) (r : GenomicAW2Raw),
      r ∈ get_aw2_ingestion_deltas db ↔
        r ∈ db.aw2Raw ∧ r.ignore_flag = 0 ∧ r.biobank_id ≠ "" ∧
        r.sample_id ≠ "" ∧
        ∃ m ∈ db.members, m.sampleId = some r.sample_id ∧
          m.replatedMemberId = none ∧
          ¬ ∃ g ∈ db.metrics, g.genomicSetMemberId = m.id) := by
  constructor
  · intro db r
    simp only [get_set_member_deltas, List.mem_filter, Bool.and_eq_true,
      Bool.not_eq_true', List.any_eq_false, decide_eq_true_eq,
      optEq_some_right_iff, not_exists, not_and]
    tauto
  · intro db r
    simp only [get_aw2_ingestion_deltas, List.mem_flatMap, List.mem_filter,
      mem_if_singleton]
    simp only [Bool.and_eq_true, Bool.not_eq_true', List.any_eq_false,
      decide_eq_true_eq, optEq_some_right_iff, not_exists, not_and]
    constructor
    · rintro ⟨r', hr', m, ⟨hm, hsid⟩, ⟨⟨⟨⟨hng, h0⟩, hb⟩, hs⟩, hrep⟩, rfl⟩
      exact ⟨hr', h0, hb, hs, m, hm, hsid, hrep, hng⟩
    · rintro ⟨hmem, h0, hb, hs, m, hm, hsid, hrep, hng⟩
      exact ⟨r, hmem, m, ⟨hm, hsid⟩, ⟨⟨⟨⟨hng, h0⟩, hb⟩, hs⟩, hrep⟩, rfl⟩

/-- The AW1 raw row of the C4 counterexample: all key columns non-empty,
not ignored. -/
def c4Raw : GenomicAW1Raw :=
  { id := 1, biobank_id := "B1", sample_id := "S1",
    collection_tube_id := "C1", test_name := "aou_wgs", ignore_flag := 0 }

/-- The C4 store: a member matching the raw row on `sample_id` but on
neither `biobank_id` nor `collection_tube_id`. -/
def c4Db : Db :=
  { emptyDb with
    members := [{ baseMember with
      id := 10, participantId := 1, biobankId := "B2",
      sampleId := some "S1", collectionTubeId := "C2",
      genomeType := "aou_wgs" }]
    aw1Raw := [c4Raw] }

/-- C4 counterexample: by the claim, the AW1 family is keyed on
`biobank_id` plus `collection_tube`; no ledger entry matches the raw
row's (B1, C1), so the row should be a delta.  The code joins on
`sample_id`, finds the member with sample S1 and returns no delta. -/
theorem c4_counterexample :
    get_set_member_deltas c4Db = [] ∧
    c4Raw ∈ c4Db.aw1Raw ∧
    c4Raw.ignore_flag = 0 ∧ c4Raw.biobank_id ≠ "" ∧ c4Raw.sample_id ≠ "" ∧
    (∀ m ∈ c4Db.members,
      ¬ (m.biobankId = c4Raw.biobank_id ∧
         m.collectionTubeId = c4Raw.collection_tube_id)) := by
  decide

/-! ## C5 -/

/-- C5: a member in `GC_DATA_FILES_MISSING` state is returned by
`get_aw2_missing_with_all_files` exactly when some non-ignored metrics
row for it has every one of the required file-path fields present —
all seven for the array genome type (both idats, both idat md5s, vcf,
tbi, vcf md5), all six for WGS (hard-filtered VCF, tbi, md5, CRAM, crai,
cram md5); a member with any required field missing on every such row is
never returned.  Member ids are assumed unique (`huniq`), as they are as
a primary key. -/
theorem c5_all_or_nothing_files (db : Db) (m : GenomicSetMember)
    (hm : m ∈ db.members)
    (huniq : ∀ m' ∈ db.members, m'.id = m.id → m' = m)
    (hstate : m.genomicWorkflowState = GenomicWorkflowState.GC_DATA_FILES_MISSING) :
    (m.genomeType = GENOME_TYPE_ARRAY →
      (m.id ∈ get_aw2_missing_with_all_files GENOME_TYPE_ARRAY db ↔
        ∃ g ∈ db.metrics, g.genomicSetMemberId = m.id ∧ g.ignoreFlag ≠ 1 ∧
          g.idatRedPath ≠ none ∧ g.idatGreenPath ≠ none ∧
          g.idatRedMd5Path ≠ none ∧ g.idatGreenMd5Path ≠ none ∧
          g.vcfPath ≠ none ∧ g.vcfTbiPath ≠ none ∧ g.vcfMd5Path ≠ none)) ∧
    (m.genomeType = GENOME_TYPE_WGS →
      (m.id ∈ get_aw2_missing_with_all_files GENOME_TYPE_WGS db ↔
        ∃ g ∈ db.metrics, g.genomicSetMemberId = m.id ∧ g.ignoreFlag ≠ 1 ∧
          g.hfVcfPath ≠ none ∧ g.hfVcfTbiPath ≠ none ∧
          g.hfVcfMd5Path ≠ none ∧ g.cramPath ≠ none ∧
          g.cramMd5Path ≠ none ∧ g.craiPath ≠ none)) := by
  constructor
  · intro hgt
    constructor
    · intro h
      obtain ⟨m', hm', h2⟩ := List.mem_flatMap.mp h
      obtain ⟨g, hgf, h3⟩ := List.mem_flatMap.mp h2
      obtain ⟨hg, hgid⟩ := List.mem_filter.mp hgf
      rw [mem_if_singleton] at h3
      obtain ⟨hcond, hid⟩ := h3
      have hm'm : m = m' := (huniq m' hm' hid.symm).symm
      subst hm'm
      have hgid' : g.genomicSetMemberId = m.id := by simpa using hgid
      refine ⟨g, hg, hgid', ?_⟩
      revert hcond
      simp [arrayFilesPresent, GENOME_TYPE_ARRAY, GENOME_TYPE_WGS,
        Option.isSome_iff_ne_none]
      tauto
    · rintro ⟨g, hg, hgid, hig, h1, h2, h3, h4, h5, h6, h7⟩
      refine List.mem_flatMap.mpr ⟨m, hm, List.mem_flatMap.mpr
        ⟨g, List.mem_filter.mpr ⟨hg, by simp [hgid]⟩, ?_⟩⟩
      rw [mem_if_singleton]
      refine ⟨?_, rfl⟩
      simp [arrayFilesPresent, GENOME_TYPE_ARRAY, GENOME_TYPE_WGS,
        Option.isSome_iff_ne_none, hstate, hgt, hig, h1, h2, h3, h4, h5, h6, h7]
  · intro hgt
    constructor
    · intro h
      obtain ⟨m', hm', h2⟩ := List.mem_flatMap.mp h
      obtain ⟨g, hgf, h3⟩ := List.mem_flatMap.mp h2
      obtain ⟨hg, hgid⟩ := List.mem_filter.mp hgf
      rw [mem_if_singleton] at h3
      obtain ⟨hcond, hid⟩ := h3
      have hm'm : m = m' := (huniq m' hm' hid.symm).symm
      subst hm'm
      have hgid' : g.genomicSetMemberId = m.id := by simpa using hgid
      refine ⟨g, hg, hgid', ?_⟩
      revert hcond
      simp [wgsFilesPresent, GENOME_TYPE_ARRAY, GENOME_TYPE_WGS,
        Option.isSome_iff_ne_none]
      tauto
    · rintro ⟨g, hg, hgid, hig, h1, h2, h3, h4, h5, h6⟩
      refine List.mem_flatMap.mpr ⟨m, hm, List.mem_flatMap.mpr
        ⟨g, List.mem_filter.mpr ⟨hg, by simp [hgid]⟩, ?_⟩⟩
      rw [mem_if_singleton]
      refine ⟨?_, rfl⟩
      simp [wgsFilesPresent, GENOME_TYPE_ARRAY, GENOME_TYPE_WGS,
        Option.isSome_iff_ne_none, hstate, hgt, hig, h1, h2, h3, h4, h5, h6]

/-- A complete array metrics row for the C5 witness member. -/
def c5Metrics : GenomicGCValidationMetrics :=
  { id := 1, genomicSetMemberId := 7, ignoreFlag := 0
    processingStatus := "pass", sexConcordance := "true"
    drcSexConcordance := "pass", drcFpConcordance := "pass"
    idatRedPath := some "r.idat", idatGreenPath := some "g.idat"
    idatRedMd5Path := some "r.md5", idatGreenMd5Path := some "g.md5"
    vcfPath := some "v.vcf.gz", vcfTbiPath := some "v.tbi"
    vcfMd5Path := some "v.md5", hfVcfPath := none, hfVcfTbiPath := none
    hfVcfMd5Path := none, cramPath := none, cramMd5Path := none
    craiPath := none }

/-- The C5 witness member, in `GC_DATA_FILES_MISSING` state. -/
def c5Member : GenomicSetMember :=
  { baseMember with
    id := 7, participantId := 3, genomeType := "aou_array"
    genomicWorkflowState := .GC_DATA_FILES_MISSING }

/-- C5 witness: the member with all seven array files present is
returned. -/
theorem c5_witness :
    c5Member.id ∈ get_aw2_missing_with_all_files GENOME_TYPE_ARRAY
      { emptyDb with members := [c5Member], metrics := [c5Metrics] } :=
  ((c5_all_or_nothing_files
      { emptyDb with members := [c5Member], metrics := [c5Metrics] }
      c5Member (by decide) (by decide) (by decide)).1 (by decide)).mpr
    ⟨c5Metrics, by decide, by decide, by decide, by decide, by decide,
      by decide, by decide, by decide, by decide, by decide⟩

/-! ## C9 -/

theorem setMemberJobField_id (m : GenomicSetMember) (field : String)
    (v : Option Nat) : (setMemberJobField m field v).id = m.id := by
  unfold setMemberJobField
  split <;> try rfl
  split <;> try rfl
  split <;> rfl

theorem updateMembersLoop_ids (field : String) (v : Option Nat)
    (members : List GenomicSetMember) (m_id : Nat) (i : Nat) :
    ((members.map fun m =>
        if m.id = m_id then setMemberJobField m field v else m).any
      fun m => m.id = i) = (members.any fun m => m.id = i) := by
  induction members with
  | nil => rfl
  | cons x xs ih =>
    simp only [List.map_cons, List.any_cons, ih]
    congr 1
    split <;> simp [setMemberJobField_id]

theorem updateMembersLoop_cons_pos (field : String) (v : Option Nat)
    (i : Nat) (rest : List Nat) (members : List GenomicSetMember)
    (hi : (members.any fun m => m.id = i) = true) :
    updateMembersLoop field v (i :: rest) members =
      updateMembersLoop field v rest (members.map fun m =>
        if m.id = i then setMemberJobField m field v else m) := by
  simp [updateMembersLoop, hi]

theorem updateMembersLoop_cons_neg (field : String) (v : Option Nat)
    (i : Nat) (rest : List Nat) (members : List GenomicSetMember)
    (hi : (members.any fun m => m.id = i) = false) :
    updateMembersLoop field v (i :: rest) members =
      (UpdateOutcome.result GenomicSubProcessResult.ERROR, members) := by
  simp [updateMembersLoop, hi]

theorem updateMembersLoop_spec (field : String) (v : Option Nat) :
    ∀ (ids : List Nat) (members : List GenomicSetMember),
      ((updateMembersLoop field v ids members).1 =
          UpdateOutcome.result GenomicSubProcessResult.SUCCESS ∨
        (updateMembersLoop field v ids members).1 =
          UpdateOutcome.result GenomicSubProcessResult.ERROR) ∧
      ((updateMembersLoop field v ids members).1 =
          UpdateOutcome.result GenomicSubProcessResult.SUCCESS ↔
        ∀ i ∈ ids, ∃ m ∈ members, m.id = i) := by
  intro ids
  induction ids with
  | nil =>
    intro members
    simp [updateMembersLoop]
  | cons i rest ih =>
    intro members
    by_cases hi : (members.any fun m => m.id = i) = true
    · rw [updateMembersLoop_cons_pos field v i rest members hi]
      have hrec := ih (members.map fun m =>
        if m.id = i then setMemberJobField m field v else m)
      refine ⟨hrec.1, ?_⟩
      rw [hrec.2]
      have hmap : ∀ j, (∃ m ∈ (members.map fun m =>
          if m.id = i then setMemberJobField m field v else m), m.id = j) ↔
          ∃ m ∈ members, m.id = j := by
        intro j
        have h := updateMembersLoop_ids field v members i j
        constructor
        · intro hx
          have hx' : ((members.map fun m =>
              if m.id = i then setMemberJobField m field v else m).any
                fun m => m.id = j) = true := by
            simpa [List.any_eq_true] using hx
          rw [h] at hx'
          simpa [List.any_eq_true] using hx'
        · intro hx
          have hx' : (members.any fun m => m.id = j) = true := by
            simpa [List.any_eq_true] using hx
          rw [← h] at hx'
          simpa [List.any_eq_true] using hx'
      constructor
      · intro hall j hj
        rcases List.mem_cons.mp hj with rfl | hj'
        · simpa [List.any_eq_true] using hi
        · exact (hmap j).mp (hall j hj')
      · intro hall j hj
        exact (hmap j).mpr (hall j (List.mem_cons_of_mem i hj))
    · rw [updateMembersLoop_cons_neg field v i rest members (by simpa using hi)]
      refine ⟨Or.inr rfl, ?_⟩
      constructor
      · intro h
        exact absurd h (by simp)
      · intro hall
        have hex : ∃ m ∈ members, m.id = i :=
          hall i (List.mem_cons_self i rest)
        exact absurd (by simpa [List.any_eq_true] using hex) hi

/-- C9 counterexample: the claim says a call with a nonexistent job-run
field fails with `InvalidFieldError`, and one targeting a missing record
fails with `RecordNotFoundError`.  The code instead logs and returns the
`GenomicSubProcessResult.ERROR` value in both situations — no such
exception is raised. -/
theorem c9_counterexample :
    update_member_job_run_id [] [1] (some 5) (some "notAField") =
      (UpdateOutcome.result GenomicSubProcessResult.ERROR, []) ∧
    UpdateOutcome.result GenomicSubProcessResult.ERROR ≠
      UpdateOutcome.raisedInvalidFieldError ∧
    update_member_job_run_id [] [1] (some 5) (some "gemA1ManifestJobRunId") =
      (UpdateOutcome.result GenomicSubProcessResult.ERROR, []) ∧
    UpdateOutcome.result GenomicSubProcessResult.ERROR ≠
      UpdateOutcome.raisedRecordNotFoundError := by
  decide

/-- C9 amended: no update call is silently dropped, but failures are
signalled by the returned `GenomicSubProcessResult.ERROR` value, not by
raising `InvalidFieldError`/`RecordNotFoundError`:
`update_member_job_run_id` returns `SUCCESS` exactly when the field name
is a valid member attribute and every target id exists (otherwise
`ERROR`, leaving the store unchanged on an invalid field), and
`update_member_workflow_state` always mutates the record, keeps the
string mirror in sync and stamps the modified time. -/
theorem c9_update_outcomes :
    (∀ (members : List GenomicSetMember) (ids : List Nat) (jr : Option Nat)
        (field : Option String),
      ((update_member_job_run_id members ids jr field).1 =
          UpdateOutcome.result GenomicSubProcessResult.SUCCESS ∨
        (update_member_job_run_id members ids jr field).1 =
          UpdateOutcome.result GenomicSubProcessResult.ERROR) ∧
      ((update_member_job_run_id members ids jr field).1 =
          UpdateOutcome.result GenomicSubProcessResult.SUCCESS ↔
        is_valid_set_member_job_field field = true ∧
          ∀ i ∈ ids, ∃ m ∈ members, m.id = i) ∧
      (is_valid_set_member_job_field field = false →
        update_member_job_run_id members ids jr field =
          (UpdateOutcome.result GenomicSubProcessResult.ERROR, members))) ∧
    (∀ (m : GenomicSetMember) (s : GenomicWorkflowState) (now : Time),
      (update_member_workflow_state m s now).genomicWorkflowState = s ∧
      (update_member_workflow_state m s now).genomicWorkflowStateStr =
        workflowStateName s ∧
      (update_member_workflow_state m s now).genomicWorkflowStateModifiedTime =
        some now) := by
  constructor
  · intro members ids jr field
    match field with
    | none => simp [update_member_job_run_id, is_valid_set_member_job_field]
    | some f =>
      by_cases hv : is_valid_set_member_job_field (some f) = true
      · have hloop := updateMembersLoop_spec f jr ids members
        simp only [update_member_job_run_id, hv, if_pos]
        exact ⟨hloop.1, by rw [hloop.2]; simp [hv], by simp [hv]⟩
      · rw [Bool.not_eq_true] at hv
        simp [update_member_job_run_id, hv]
  · intro m s now
    exact ⟨rfl, rfl, rfl⟩

/-- C9 witness: the amended theorem applied at a concrete store — an
invalid field yields the `ERROR` result with the store unchanged, and a
valid call on an existing record succeeds. -/
theorem c9_update_outcomes_witness :
    update_member_job_run_id [{ baseMember with id := 3 }] [3] (some 9)
        (some "bogusField") =
      (UpdateOutcome.result GenomicSubProcessResult.ERROR,
        [{ baseMember with id := 3 }]) ∧
    (update_member_job_run_id [{ baseMember with id := 3 }] [3] (some 9)
        (some "gemA1ManifestJobRunId")).1 =
      UpdateOutcome.result GenomicSubProcessResult.SUCCESS :=
  ⟨(c9_update_outcomes.1 [{ baseMember with id := 3 }] [3] (some 9)
      (some "bogusField")).2.2 (by decide),
   (c9_update_outcomes.1 [{ baseMember with id := 3 }] [3] (some 9)
      (some "gemA1ManifestJobRunId")).2.1.mpr
     ⟨by decide, by decide⟩⟩

/-! ## C3 -/

/-- The output row `get_past_due_samples` builds for a member. -/
def pastDueRowOf (result_type : PastDueResultType) (m : GenomicSetMember) :
    PastDueRow :=
  { genomicSetMemberId := m.id
    sampleId := m.sampleId
    cvlSiteId := m.gcSiteId
    resultsType := pastDueAnalysisType result_type }

theorem mem_get_past_due_samples (result_type : PastDueResultType)
    (now : Time) (limits : CvlLimits) (db : Db) (m : GenomicSetMember)
    (hm : m ∈ db.members)
    (huniq : ∀ m' ∈ db.members, m'.id = m.id → m' = m) :
    pastDueRowOf result_type m ∈
        get_past_due_samples result_type now (some limits) db ↔
      pastDuePasses result_type now limits db m = true := by
  simp only [get_past_due_samples, List.mem_map, List.mem_filter]
  constructor
  · rintro ⟨m', ⟨hm', hp⟩, heq⟩
    have hid : m'.id = m.id := congrArg PastDueRow.genomicSetMemberId heq
    have hmm : m = m' := (huniq m' hm' hid).symm
    subst hmm
    exact hp
  · intro hp
    exact ⟨m, ⟨hm, hp⟩, rfl⟩

theorem pastDuePasses_pgx_iff (now : Time) (limits : CvlLimits) (db : Db)
    (m : GenomicSetMember) (s : String) (rid : Nat) (run : GenomicJobRun)
    (T : Time) (hs : m.sampleId = some s)
    (hwgs : m.genomeType = GENOME_TYPE_WGS)
    (hnopd : ∀ pd ∈ db.cvlPastDue, pd.sample_id ≠ s)
    (hw4 : ∀ w ∈ db.w4wrRaw, ¬(w.sample_id = s ∧
      w.clinical_analysis_type = ResultsModuleType.PGXV1))
    (hpgx : m.cvlW1ilPgxJobRunId = some rid)
    (hrun : run ∈ db.jobRuns) (hrid : run.id = rid) (hT : run.created = T)
    (hrununiq : ∀ r ∈ db.jobRuns, r.id = rid → r = run) :
    pastDuePasses PastDueResultType.RECONCILE_CVL_PGX_RESULTS now limits db m
        = true ↔ now > T + limits.pgx_time_limit := by
  simp only [pastDuePasses, w1ilRunIdField, pastDueAnalysisType, hpgx, hs,
    Bool.and_eq_true, List.any_eq_true, Bool.not_eq_true',
    List.any_eq_false, decide_eq_true_eq, Option.isSome_some,
    optEq_some_right_iff, Option.some.injEq]
  constructor
  · intro h
    have hA : ∃ r ∈ db.jobRuns, r.id = rid ∧
        r.created < now - limits.pgx_time_limit := by tauto
    obtain ⟨r, hr, hrrid, hrt⟩ := hA
    have hreq : r = run := hrununiq r hr hrrid
    subst hreq
    rw [hT] at hrt
    linarith
  · intro ht
    have h1 : ∃ r ∈ db.jobRuns, r.id = rid ∧
        r.created < now - limits.pgx_time_limit :=
      ⟨run, hrun, hrid, by rw [hT]; linarith⟩
    have h2 : ∀ pd ∈ db.cvlPastDue, ¬ pd.sample_id = s := hnopd
    have h3 : ∀ w ∈ db.w4wrRaw, ¬(w.sample_id = s ∧
        w.clinical_analysis_type = ResultsModuleType.PGXV1) := hw4
    tauto

theorem pastDuePasses_hdr_iff (now : Time) (limits : CvlLimits) (db : Db)
    (m : GenomicSetMember) (s : String) (rid : Nat) (run : GenomicJobRun)
    (T : Time) (hs : m.sampleId = some s)
    (hwgs : m.genomeType = GENOME_TYPE_WGS)
    (hnopd : ∀ pd ∈ db.cvlPastDue, pd.sample_id ≠ s)
    (hw4 : ∀ w ∈ db.w4wrRaw, ¬(w.sample_id = s ∧
      w.clinical_analysis_type = ResultsModuleType.HDRV1))
    (hhdr : m.cvlW1ilHdrJobRunId = some rid)
    (hw2w : ∀ w ∈ db.w2wRaw, w.sample_id ≠ s)
    (hrun : run ∈ db.jobRuns) (hrid : run.id = rid) (hT : run.created = T)
    (hrununiq : ∀ r ∈ db.jobRuns, r.id = rid → r = run) :
    ((∃ w ∈ db.w3scRaw, w.sample_id = s) →
      (pastDuePasses PastDueResultType.RECONCILE_CVL_HDR_RESULTS now limits
          db m = true ↔
        now > T + limits.hdr_time_limit + limits.w3sc_extension)) ∧
    ((∀ w ∈ db.w3scRaw, w.sample_id ≠ s) →
      (pastDuePasses PastDueResultType.RECONCILE_CVL_HDR_RESULTS now limits
          db m = true ↔
        now > T + limits.hdr_time_limit)) := by
  simp only [pastDuePasses, w1ilRunIdField, pastDueAnalysisType, hhdr, hs,
    Bool.and_eq_true, List.any_eq_true, Bool.not_eq_true',
    List.any_eq_false, decide_eq_true_eq, Option.isSome_some,
    optEq_some_right_iff, Option.some.injEq]
  constructor
  · intro hw3
    constructor
    · intro h
      have hA : ∃ r ∈ db.jobRuns, r.id = rid ∧
          (∀ w ∈ db.w2wRaw, ¬ w.sample_id = s) ∧
          (if ∃ w ∈ db.w3scRaw, w.sample_id = s then
            decide (r.created < now - limits.hdr_time_limit -
              limits.w3sc_extension)
          else decide (r.created < now - limits.hdr_time_limit)) = true :=
        h.1.1.1.1.1
      obtain ⟨r, hr, hrrid, -, hif⟩ := hA
      rw [if_pos hw3] at hif
      have hrt := of_decide_eq_true hif
      have hreq : r = run := hrununiq r hr hrrid
      subst hreq
      rw [hT] at hrt
      linarith
    · intro ht
      have h1 : ∃ r ∈ db.jobRuns, r.id = rid ∧
          (∀ w ∈ db.w2wRaw, ¬ w.sample_id = s) ∧
          (if ∃ w ∈ db.w3scRaw, w.sample_id = s then
            decide (r.created < now - limits.hdr_time_limit -
              limits.w3sc_extension)
          else decide (r.created < now - limits.hdr_time_limit)) = true := by
        refine ⟨run, hrun, hrid, fun w hw => hw2w w hw, ?_⟩
        rw [if_pos hw3]
        exact decide_eq_true (by rw [hT]; linarith)
      exact ⟨⟨⟨⟨⟨h1, trivial⟩, hwgs⟩, hnopd⟩, hw4⟩, trivial⟩
  · intro hw3
    have hnotex : ¬ ∃ w ∈ db.w3scRaw, w.sample_id = s := by
      rintro ⟨w, hw, hws⟩
      exact hw3 w hw hws
    constructor
    · intro h
      have hA : ∃ r ∈ db.jobRuns, r.id = rid ∧
          (∀ w ∈ db.w2wRaw, ¬ w.sample_id = s) ∧
          (if ∃ w ∈ db.w3scRaw, w.sample_id = s then
            decide (r.created < now - limits.hdr_time_limit -
              limits.w3sc_extension)
          else decide (r.created < now - limits.hdr_time_limit)) = true :=
        h.1.1.1.1.1
      obtain ⟨r, hr, hrrid, -, hif⟩ := hA
      rw [if_neg hnotex] at hif
      have hrt := of_decide_eq_true hif
      have hreq : r = run := hrununiq r hr hrrid
      subst hreq
      rw [hT] at hrt
      linarith
    · intro ht
      have h1 : ∃ r ∈ db.jobRuns, r.id = rid ∧
          (∀ w ∈ db.w2wRaw, ¬ w.sample_id = s) ∧
          (if ∃ w ∈ db.w3scRaw, w.sample_id = s then
            decide (r.created < now - limits.hdr_time_limit -
              limits.w3sc_extension)
          else decide (r.created < now - limits.hdr_time_limit)) = true := by
        refine ⟨run, hrun, hrid, fun w hw => hw2w w hw, ?_⟩
        rw [if_neg hnotex]
        exact decide_eq_true (by rw [hT]; linarith)
      exact ⟨⟨⟨⟨⟨h1, trivial⟩, hwgs⟩, hnopd⟩, hw4⟩, trivial⟩

/-- C3 amended: for a WGS member with a sample id, a W1IL job run created
at `T`, no W4WR raw record of the module's analysis type, and — the
conditions the claim leaves implicit — no existing past-due record for
the sample and (for HDR) no W2W raw record: under PGX the sample is
returned exactly when `now > T + pgx_time_limit`; under HDR with a W3SC
checkpoint exactly when `now > T + hdr_time_limit + w3sc_extension`, and
with no W3SC exactly when `now > T + hdr_time_limit`. -/
theorem c3_past_due_two_tier (now : Time) (limits : CvlLimits) (db : Db)
    (m : GenomicSetMember) (s : String) (rid : Nat) (run : GenomicJobRun)
    (T : Time) (hm : m ∈ db.members)
    (huniq : ∀ m' ∈ db.members, m'.id = m.id → m' = m)
    (hs : m.sampleId = some s) (hwgs : m.genomeType = GENOME_TYPE_WGS)
    (hnopd : ∀ pd ∈ db.cvlPastDue, pd.sample_id ≠ s)
    (hrun : run ∈ db.jobRuns) (hrid : run.id = rid) (hT : run.created = T)
    (hrununiq : ∀ r ∈ db.jobRuns, r.id = rid → r = run) :
    (m.cvlW1ilPgxJobRunId = some rid →
      (∀ w ∈ db.w4wrRaw, ¬(w.sample_id = s ∧
        w.clinical_analysis_type = ResultsModuleType.PGXV1)) →
      (pastDueRowOf PastDueResultType.RECONCILE_CVL_PGX_RESULTS m ∈
          get_past_due_samples PastDueResultType.RECONCILE_CVL_PGX_RESULTS
            now (some limits) db ↔
        now > T + limits.pgx_time_limit)) ∧
    (m.cvlW1ilHdrJobRunId = some rid →
      (∀ w ∈ db.w4wrRaw, ¬(w.sample_id = s ∧
        w.clinical_analysis_type = ResultsModuleType.HDRV1)) →
      (∀ w ∈ db.w2wRaw, w.sample_id ≠ s) →
      ((∃ w ∈ db.w3scRaw, w.sample_id = s) →
        (pastDueRowOf PastDueResultType.RECONCILE_CVL_HDR_RESULTS m ∈
            get_past_due_samples PastDueResultType.RECONCILE_CVL_HDR_RESULTS
              now (some limits) db ↔
          now > T + limits.hdr_time_limit + limits.w3sc_extension)) ∧
      ((∀ w ∈ db.w3scRaw, w.sample_id ≠ s) →
        (pastDueRowOf PastDueResultType.RECONCILE_CVL_HDR_RESULTS m ∈
            get_past_due_samples PastDueResultType.RECONCILE_CVL_HDR_RESULTS
              now (some limits) db ↔
          now > T + limits.hdr_time_limit))) := by
  refine ⟨fun hpgx hw4 => ?_,
    fun hhdr hw4 hw2w => ⟨fun hw3 => ?_, fun hw3 => ?_⟩⟩
  · rw [mem_get_past_due_samples _ now limits db m hm huniq]
    exact pastDuePasses_pgx_iff now limits db m s rid run T hs hwgs hnopd
      hw4 hpgx hrun hrid hT hrununiq
  · rw [mem_get_past_due_samples _ now limits db m hm huniq]
    exact (pastDuePasses_hdr_iff now limits db m s rid run T hs hwgs hnopd
      hw4 hhdr hw2w hrun hrid hT hrununiq).1 hw3
  · rw [mem_get_past_due_samples _ now limits db m hm huniq]
    exact (pastDuePasses_hdr_iff now limits db m s rid run T hs hwgs hnopd
      hw4 hhdr hw2w hrun hrid hT hrununiq).2 hw3

/-- Concrete CVL reconcile limits for the C3 instances. -/
def c3Limits : CvlLimits :=
  { pgx_time_limit := 10, hdr_time_limit := 14, w3sc_extension := 7 }

/-- The C3 counterexample member: a WGS sample with a PGX W1IL run and no
W4WR record, whose sample already sits in the past-due table. -/
def c3Member : GenomicSetMember :=
  { baseMember with
    id := 1, participantId := 2, sampleId := some "S1"
    genomeType := "aou_wgs", gcSiteId := "bcm"
    cvlW1ilPgxJobRunId := some 7 }

/-- The C3 counterexample store: the member's W1IL run was created at 0,
`now` is 100 (far past `pgx_time_limit = 10`), no W4WR record exists, but
a `GenomicCVLResultPastDue` row for sample S1 already exists. -/
def c3Db : Db :=
  { emptyDb with
    members := [c3Member]
    jobRuns := [{ id := 7, created := 0 }]
    cvlPastDue := [{ id := 4, sample_id := "S1" }] }

/-- C3 counterexample: by the claim, a sample with a W1IL run at `T = 0`
and no W4WR record is included exactly when `now > T + pgx_time_limit`;
here `now = 100 > 10`, yet `get_past_due_samples` returns nothing,
because the query also anti-joins the `GenomicCVLResultPastDue` table
(a condition the claim omits) and the sample is already recorded there. -/
theorem c3_counterexample :
    get_past_due_samples PastDueResultType.RECONCILE_CVL_PGX_RESULTS 100
        (some c3Limits) c3Db = [] ∧
    c3Member ∈ c3Db.members ∧
    c3Member.cvlW1ilPgxJobRunId = some 7 ∧
    ({ id := 7, created := 0 } : GenomicJobRun) ∈ c3Db.jobRuns ∧
    c3Db.w4wrRaw = [] ∧
    (100 : Time) > 0 + c3Limits.pgx_time_limit := by
  decide

/-- The C3 witness member: as `c3Member` but for sample S2, which has no
past-due record. -/
def c3wMember : GenomicSetMember :=
  { baseMember with
    id := 2, participantId := 3, sampleId := some "S2"
    genomeType := "aou_wgs", gcSiteId := "bi"
    cvlW1ilPgxJobRunId := some 7 }

/-- The C3 witness store. -/
def c3wDb : Db :=
  { emptyDb with
    members := [c3wMember]
    jobRuns := [{ id := 7, created := 0 }] }

/-- C3 witness: the amended theorem applied at the witness store — the
sample is past-due at `now = 100 > 0 + 10`. -/
theorem c3_witness :
    pastDueRowOf PastDueResultType.RECONCILE_CVL_PGX_RESULTS c3wMember ∈
      get_past_due_samples PastDueResultType.RECONCILE_CVL_PGX_RESULTS 100
        (some c3Limits) c3wDb :=
  ((c3_past_due_two_tier 100 c3Limits c3wDb c3wMember "S2" 7
      { id := 7, created := 0 } 0 (by decide) (by decide) (by decide)
      (by decide) (by decide) (by decide) (by decide) rfl (by decide)).1
    (by decide) (by decide)).mpr (by decide)

/-! ## C2 -/

/-- A baseline appointment event; the instances override the relevant
fields. -/
def baseAppointment : GenomicAppointmentEvent :=
  { id := 0, participant_id := 0, module_type := "", event_type := ""
    appointment_id := none, event_authored_time := none
    appointment_timestamp := none, appointment_timezone := none
    source := none, location := none, contact_number := none
    language := none, cancellation_reason := none }

/-- Group (1, "hdr"): its max appointment id (2) sits on the event with
the *older* authored time (10); the same group's max authored time is 20. -/
def c2e1 : GenomicAppointmentEvent :=
  { baseAppointment with
    id := 1, participant_id := 1, module_type := "hdr"
    event_type := "appointment_scheduled", appointment_id := some 2
    event_authored_time := some 10 }

/-- Group (1, "hdr"): the later-authored event with the smaller
appointment id. -/
def c2e2 : GenomicAppointmentEvent :=
  { baseAppointment with
    id := 2, participant_id := 1, module_type := "hdr"
    event_type := "appointment_updated", appointment_id := some 1
    event_authored_time := some 20 }

/-- Group (2, "hdr"): an unrelated participant whose group's max authored
time happens to be 10. -/
def c2e3 : GenomicAppointmentEvent :=
  { baseAppointment with
    id := 3, participant_id := 2, module_type := "hdr"
    event_type := "appointment_scheduled", appointment_id := some 5
    event_authored_time := some 10 }

/-- The C2 store: both participants have a member whose origin is in the
allow-list. -/
def c2Db : Db :=
  { emptyDb with
    members :=
      [{ baseMember with id := 21, participantId := 1, participantOrigin := "vibrent" },
       { baseMember with id := 22, participantId := 2, participantOrigin := "vibrent" }]
    appointmentEvents := [c2e1, c2e2, c2e3] }

/-- C2: the claim requires every returned appointment event to carry both
the maximum `appointment_id` *and* the maximum `event_authored_time` of
its own (participant, module) group.  The source's
`max_event_authored_time` grouped subquery is referenced only in the
`WHERE` clause and never join-correlated to the event's group, so it
cross-joins: the filter only asks that the event's authored time equal
the max authored time of *some* group.  Here the event with
`appointment_id = 2`, authored at 10, is returned for group (1, "hdr")
— its authored time matches group (2, "hdr")'s maximum — even though its
own group's maximum authored time is 20.  (The subquery even selects
`participant_id`/`module_type` columns for the missing correlation.) -/
theorem c2_uncorrelated_max_authored_time :
    schedulingRowOf c2Db c2e1 ∈
      get_latest_scheduling_data c2Db none none none none
        (some ["vibrent"]) ∧
    c2e1 ∈ c2Db.appointmentEvents ∧ c2e2 ∈ c2Db.appointmentEvents ∧
    c2e2.participant_id = c2e1.participant_id ∧
    c2e2.module_type = c2e1.module_type ∧
    c2e1.event_authored_time = some 10 ∧
    c2e2.event_authored_time = some 20 ∧
    maxAuthoredTimeOfGroup c2Db (c2e1.participant_id, c2e1.module_type) =
      some 20 ∧
    optEq c2e1.event_authored_time
      (maxAuthoredTimeOfGroup c2Db (c2e1.participant_id, c2e1.module_type)) =
      false ∧
    optEq c2e1.appointment_id
      (maxAppointmentIdOfGroup c2Db (c2e1.participant_id, c2e1.module_type)) =
      true := by
  decide

/-! ## C1 -/

theorem foldl_maxById_spec (xs : List DecisionRow) (x : DecisionRow) :
    xs.foldl (fun acc y => if y.id > acc.id then y else acc) x ∈ x :: xs ∧
    ∀ y ∈ x :: xs,
      y.id ≤ (xs.foldl (fun acc y => if y.id > acc.id then y else acc) x).id := by
  induction xs generalizing x with
  | nil => simp
  | cons z zs ih =>
    simp only [List.foldl_cons]
    have hwmem : (if z.id > x.id then z else x) = x ∨
        (if z.id > x.id then z else x) = z := by
      split <;> simp
    have hxw : x.id ≤ (if z.id > x.id then z else x).id := by
      split <;> omega
    have hzw : z.id ≤ (if z.id > x.id then z else x).id := by
      split <;> omega
    refine ⟨?_, ?_⟩
    · have hm := (ih (if z.id > x.id then z else x)).1
      rcases List.mem_cons.mp hm with he | hm'
      · rw [he]
        rcases hwmem with hw | hw <;> rw [hw] <;> simp
      · simp [List.mem_cons, hm']
    · intro y hy
      have hle := (ih (if z.id > x.id then z else x)).2
      have hhead := hle _ (List.mem_cons_self _ zs)
      rcases List.mem_cons.mp hy with rfl | hy'
      · exact le_trans hxw hhead
      rcases List.mem_cons.mp hy' with rfl | hy''
      · exact le_trans hzw hhead
      · exact hle y (List.mem_cons_of_mem _ hy'')

theorem pyMaxById_spec (l : List DecisionRow) (ev : DecisionRow)
    (h : pyMaxById l = some ev) : ev ∈ l ∧ ∀ y ∈ l, y.id ≤ ev.id := by
  cases l with
  | nil => simp [pyMaxById] at h
  | cons x xs =>
    simp only [pyMaxById, Option.some.injEq] at h
    subst h
    exact foldl_maxById_spec xs x

theorem getMaxDecisionLoops_spec (rows : List DecisionRow) (ev : DecisionRow)
    (h : ev ∈ getMaxDecisionLoops rows) :
    ev ∈ rows ∧ ∀ r ∈ rows, r.participant_id = ev.participant_id →
      pyLower r.module_type = pyLower ev.module_type → r.id ≤ ev.id := by
  unfold getMaxDecisionLoops at h
  split at h
  · simp at h
  · obtain ⟨pid, hpid, h2⟩ := List.mem_flatMap.mp h
    obtain ⟨module, hmod, h3⟩ := List.mem_flatMap.mp h2
    have hsome : pyMaxById ((rows.filter fun x =>
        x.participant_id = pid).filter fun x =>
          pyLower x.module_type = pyLower module) = some ev := by
      cases hc : pyMaxById ((rows.filter fun x =>
          x.participant_id = pid).filter fun x =>
            pyLower x.module_type = pyLower module) with
      | none => rw [hc] at h3; simp [Option.toList] at h3
      | some v =>
        rw [hc] at h3
        simp only [Option.toList, List.mem_singleton] at h3
        subst h3
        rfl
    have hspec := pyMaxById_spec _ ev hsome
    have hmem2 := List.mem_filter.mp hspec.1
    have hmem1 := List.mem_filter.mp hmem2.1
    have hevpid : ev.participant_id = pid := by
      simpa using hmem1.2
    have hevmod : pyLower ev.module_type = pyLower module := by
      simpa using hmem2.2
    refine ⟨hmem1.1, ?_⟩
    intro r hr hrpid hrmod
    apply hspec.2
    apply List.mem_filter.mpr
    refine ⟨List.mem_filter.mpr ⟨hr, ?_⟩, ?_⟩
    · simp [hrpid, hevpid]
    · simp [hrmod, hevmod]

/-- C1 amended: the two "latest decision" selectors are not the same
rule.  `build_latest_decision_query` is the spec's self-anti-join: it
returns exactly the decision events of the module with no later-authored
decision event for the same participant (so, at distinct non-null
authored times, the most recently authored one).  The decision branch of
`get_outreach_data` (`_get_max_decision_loops`) instead keeps, for each
participant and case-folded module, the decision row with the maximum
`id`, regardless of authored times. -/
theorem c1_latest_decision_selection :
    (∀ (module : String) (loops : List GenomicInformingLoop)
        (il : GenomicInformingLoop),
      il ∈ build_latest_decision_query module loops ↔
        il ∈ loops ∧ il.module_type = module ∧
        il.event_type = "informing_loop_decision" ∧
        ∀ later ∈ loops, later.participant_id = il.participant_id →
          later.module_type = module →
          later.event_type = "informing_loop_decision" →
          optLt il.event_authored_time later.event_authored_time = false) ∧
    (∀ (rows : List DecisionRow) (ev : DecisionRow),
      ev ∈ getMaxDecisionLoops rows →
        ev ∈ rows ∧ ∀ r ∈ rows, r.participant_id = ev.participant_id →
          pyLower r.module_type = pyLower ev.module_type → r.id ≤ ev.id) := by
  constructor
  · intro module loops il
    simp only [build_latest_decision_query, List.mem_filter,
      Bool.and_eq_true, decide_eq_true_eq, Bool.not_eq_true',
      List.any_eq_false, Bool.and_eq_false_iff, decide_eq_false_iff_not]
    constructor
    · rintro ⟨hmem, ⟨hmod, hevt⟩, hno⟩
      refine ⟨hmem, hmod, hevt, ?_⟩
      intro later hlater hpid hlmod hlevt
      have hn := hno later hlater
      rw [Bool.eq_false_iff]
      intro hopt
      exact hn ⟨⟨⟨hpid, hlmod⟩, hopt⟩, hlevt⟩
    · rintro ⟨hmem, hmod, hevt, hno⟩
      refine ⟨hmem, ⟨hmod, hevt⟩, ?_⟩
      intro later hlater
      rintro ⟨⟨⟨hpid, hlmod⟩, hopt⟩, hlevt⟩
      have hf := hno later hlater hpid hlmod hlevt
      rw [hf] at hopt
      exact Bool.false_ne_true hopt
  · exact getMaxDecisionLoops_spec

/-- The earlier-inserted decision for participant 1, module "hdr",
authored at 20 (the most recently authored). -/
def c1Loop1 : GenomicInformingLoop :=
  { id := 1, participant_id := 1, event_type := "informing_loop_decision"
    module_type := "hdr", decision_value := some "yes"
    event_authored_time := some 20, created := 1 }

/-- The later-inserted decision for the same participant and module,
authored at 10 (earlier-authored but higher id). -/
def c1Loop2 : GenomicInformingLoop :=
  { id := 2, participant_id := 1, event_type := "informing_loop_decision"
    module_type := "hdr", decision_value := some "no"
    event_authored_time := some 10, created := 2 }

/-- The C1 store: an eligible (non-withdrawn, non-suspended) participant
with a WGS member in the origin allow-list and the two decision events. -/
def c1Db : Db :=
  { emptyDb with
    summaries := [{ participantId := 1
                    withdrawalStatus := WithdrawalStatus.NOT_WITHDRAWN
                    withdrawalAuthored := none
                    suspensionStatus := SuspensionStatus.NOT_SUSPENDED
                    deceasedStatus := DeceasedStatus.UNSET
                    consentForStudyEnrollment := QuestionnaireStatus.SUBMITTED
                    consentForStudyEnrollmentAuthored := none
                    consentForGenomicsROR := QuestionnaireStatus.SUBMITTED
                    consentForGenomicsRORAuthored := none }]
    members := [{ baseMember with id := 31, participantId := 1, genomeType := "aou_wgs", participantOrigin := "vibrent" }]
    informingLoops := [c1Loop1, c1Loop2] }

/-- C1 counterexample: the claim says the decision branch of
`get_outreach_data` selects the decision event with the maximum
`event_authored_time`, independent of id ordering.  On this store the
projector returns the decision with id 2 — authored at 10 — and not the
one with id 1 authored at 20, because `_get_max_decision_loops` takes
`max(..., key=lambda x: x.id)`. -/
theorem c1_counterexample :
    get_outreach_data defaultOutreachConfig c1Db 100 none none none
        (some ["vibrent"]) =
      [OutreachRow.decision
        { participant_id := 1, module_type := "hdr",
          decision_value := some "no", id := 2 }] ∧
    c1Loop1 ∈ c1Db.informingLoops ∧
    c1Loop1.event_type = "informing_loop_decision" ∧
    c1Loop1.participant_id = 1 ∧ c1Loop1.module_type = "hdr" ∧
    c1Loop1.event_authored_time = some 20 ∧
    c1Loop2.event_authored_time = some 10 ∧ c1Loop2.id = 2 := by
  decide

/-- C1 witness: the amended theorem applied at a concrete pair of rows —
the selected row has the maximum id within its participant+module
group. -/
theorem c1_witness :
    ({ participant_id := 1, module_type := "hdr",
       decision_value := some "no", id := 2 } : DecisionRow) ∈
        ([{ participant_id := 1, module_type := "hdr",
            decision_value := some "yes", id := 1 },
          { participant_id := 1, module_type := "hdr",
            decision_value := some "no", id := 2 }] : List DecisionRow) ∧
    ({ participant_id := 1, module_type := "hdr",
       decision_value := some "yes", id := 1 } : DecisionRow).id ≤ 2 :=
  ⟨(c1_latest_decision_selection.2
      [{ participant_id := 1, module_type := "hdr",
         decision_value := some "yes", id := 1 },
       { participant_id := 1, module_type := "hdr",
         decision_value := some "no", id := 2 }]
      { participant_id := 1, module_type := "hdr",
        decision_value := some "no", id := 2 } (by decide)).1,
   (c1_latest_decision_selection.2
      [{ participant_id := 1, module_type := "hdr",
         decision_value := some "yes", id := 1 },
       { participant_id := 1, module_type := "hdr",
         decision_value := some "no", id := 2 }]
      { participant_id := 1, module_type := "hdr",
        decision_value := some "no", id := 2 } (by decide)).2
     { participant_id := 1, module_type := "hdr",
       decision_value := some "yes", id := 1 }
     (by decide) (by decide) (by decide)⟩

/-! ## C7 -/

theorem base_informing_loop_ready_summary (db : Db) (sub : GenomicSetMember)
    (hsub : sub ∈ base_informing_loop_ready db) :
    ∃ ps ∈ db.summaries, ps.participantId = sub.participantId ∧
      ps.withdrawalStatus = WithdrawalStatus.NOT_WITHDRAWN ∧
      ps.suspensionStatus = SuspensionStatus.NOT_SUSPENDED := by
  unfold base_informing_loop_ready at hsub
  obtain ⟨m', hm', h2⟩ := List.mem_flatMap.mp hsub
  obtain ⟨ps, hps, h3⟩ := List.mem_flatMap.mp h2
  obtain ⟨g, hg, h4⟩ := List.mem_flatMap.mp h3
  obtain ⟨cf, hcf, h5⟩ := List.mem_flatMap.mp h4
  rw [mem_if_singleton] at h5
  obtain ⟨hcond, rfl⟩ := h5
  simp only [Bool.and_eq_true, decide_eq_true_eq] at hcond
  exact ⟨ps, hps,
    hcond.1.1.1.1.1.1.1.1.1.1.1.1.1.1.1.1.1.1.1.1,
    hcond.1.1.1.1.1.1.1.1.1.1.1.1.1.2,
    hcond.1.1.1.1.1.1.1.1.1.1.1.1.2⟩

theorem decisionLoopRows_filters (cfg : OutreachConfig) (db : Db)
    (genomeTypes : List String) (origin : List String)
    (participant_id : Option Nat) (start_date : Option Time)
    (end_date : Time) (r : DecisionRow)
    (hr : r ∈ decisionLoopRows cfg db genomeTypes origin participant_id
      start_date end_date) :
    (∃ ps ∈ db.summaries, ps.participantId = r.participant_id ∧
      ps.withdrawalStatus = WithdrawalStatus.NOT_WITHDRAWN ∧
      ps.suspensionStatus = SuspensionStatus.NOT_SUSPENDED) ∧
    (∃ m ∈ db.members, m.participantId = r.participant_id ∧
      m.participantOrigin ∈ origin) := by
  unfold decisionLoopRows at hr
  rw [List.mem_dedup] at hr
  obtain ⟨il, hil, h2⟩ := List.mem_flatMap.mp hr
  obtain ⟨ps, hps, h3⟩ := List.mem_flatMap.mp h2
  obtain ⟨m, hm, h4⟩ := List.mem_flatMap.mp h3
  rw [mem_if_singleton] at h4
  obtain ⟨hcond, rfl⟩ := h4
  simp only [Bool.and_eq_true, decide_eq_true_eq] at hcond
  refine ⟨⟨ps, hps, hcond.1.1.1.1.1.1.1.1.1.1.1, ?_, ?_⟩,
    ⟨m, hm, hcond.1.1.1.1.1.1.1.1.1.1.2, ?_⟩⟩
  · exact hcond.1.1.1.1.1.1.1.1.2
  · exact hcond.1.1.1.1.1.1.1.2
  · simpa using hcond.1.1.2

theorem readyLoopRows_filters (db : Db) (origin : List String)
    (participant_id : Option Nat) (start_date : Option Time)
    (end_date : Time) (p : Nat)
    (hp : p ∈ readyLoopRows db origin participant_id start_date end_date) :
    (∃ ps ∈ db.summaries, ps.participantId = p ∧
      ps.withdrawalStatus = WithdrawalStatus.NOT_WITHDRAWN ∧
      ps.suspensionStatus = SuspensionStatus.NOT_SUSPENDED) ∧
    (∃ m ∈ db.members, m.participantId = p ∧ m.participantOrigin ∈ origin) := by
  unfold readyLoopRows at hp
  rw [List.mem_dedup] at hp
  obtain ⟨m', hm', h2⟩ := List.mem_flatMap.mp hp
  obtain ⟨sub, hsub, h3⟩ := List.mem_flatMap.mp h2
  rw [mem_if_singleton] at h3
  obtain ⟨hcond, rfl⟩ := h3
  simp only [Bool.and_eq_true, decide_eq_true_eq] at hcond
  have hsubpid : sub.participantId = m'.participantId := hcond.1.1.1.1.1
  have hcont : m'.participantOrigin ∈ origin := by
    simpa using hcond.1.1.2
  obtain ⟨ps, hps, hpspid, hwd, hsus⟩ :=
    base_informing_loop_ready_summary db sub hsub
  exact ⟨⟨ps, hps, by rw [hpspid, hsubpid], hwd, hsus⟩, ⟨m', hm', rfl, hcont⟩⟩

theorem resultReadyRows_filters (cfg : OutreachConfig) (db : Db)
    (genomeTypes : List String) (origin : List String)
    (participant_id : Option Nat) (start_date : Option Time)
    (end_date : Time) (r : ResultRow)
    (hr : r ∈ resultReadyRows cfg db genomeTypes origin participant_id
      start_date end_date) :
    (∃ ps ∈ db.summaries, ps.participantId = r.participant_id ∧
      ps.withdrawalStatus = WithdrawalStatus.NOT_WITHDRAWN ∧
      ps.suspensionStatus = SuspensionStatus.NOT_SUSPENDED) ∧
    (∃ rs ∈ db.reportStates, rs.participant_id = r.participant_id ∧
      ∃ m ∈ db.members, m.id = rs.genomic_set_member_id ∧
        m.participantOrigin ∈ origin) := by
  unfold resultReadyRows at hr
  rw [List.mem_dedup] at hr
  obtain ⟨rs, hrs, h2⟩ := List.mem_flatMap.mp hr
  obtain ⟨ps, hps, h3⟩ := List.mem_flatMap.mp h2
  obtain ⟨m, hm, h4⟩ := List.mem_flatMap.mp h3
  obtain ⟨sw, hsw, h5⟩ := List.mem_flatMap.mp h4
  rw [mem_if_singleton] at h5
  obtain ⟨hcond, rfl⟩ := h5
  simp only [Bool.and_eq_true, decide_eq_true_eq] at hcond
  refine ⟨⟨ps, hps, hcond.1.1.1.1.1.1.1.1.1.1, ?_, ?_⟩,
    ⟨rs, hrs, rfl, m, hm, hcond.1.1.1.1.1.1.1.1.1.2, ?_⟩⟩
  · exact hcond.1.1.1.1.1.1.1.2
  · exact hcond.1.1.1.1.1.1.2
  · simpa using hcond.1.1.2

theorem resultViewedRows_filters (cfg : OutreachConfig) (db : Db)
    (origin : List String) (participant_id : Option Nat)
    (start_date : Option Time) (end_date : Time) (r : ResultRow)
    (hr : r ∈ resultViewedRows cfg db origin participant_id start_date
      end_date) :
    (∃ ps ∈ db.summaries, ps.participantId = r.participant_id ∧
      ps.withdrawalStatus = WithdrawalStatus.NOT_WITHDRAWN ∧
      ps.suspensionStatus = SuspensionStatus.NOT_SUSPENDED) ∧
    (∃ rv ∈ db.resultVieweds, rv.participant_id = r.participant_id ∧
      ∃ rs ∈ db.reportStates, optEq rs.sample_id rv.sample_id = true ∧
        rs.module = rv.module_type ∧
        ∃ m ∈ db.members, m.id = rs.genomic_set_member_id ∧
          m.participantOrigin ∈ origin) := by
  unfold resultViewedRows at hr
  rw [List.mem_dedup] at hr
  obtain ⟨rv, hrv, h2⟩ := List.mem_flatMap.mp hr
  obtain ⟨ps, hps, h3⟩ := List.mem_flatMap.mp h2
  obtain ⟨rs, hrs, h4⟩ := List.mem_flatMap.mp h3
  obtain ⟨m, hm, h5⟩ := List.mem_flatMap.mp h4
  rw [mem_if_singleton] at h5
  obtain ⟨hcond, rfl⟩ := h5
  simp only [Bool.and_eq_true, decide_eq_true_eq] at hcond
  refine ⟨⟨ps, hps, hcond.1.1.1.1.1.1.1.1.1.1.1, ?_, ?_⟩,
    ⟨rv, hrv, rfl, rs, hrs, ?_, hcond.1.1.1.1.1.1.1.1.1.2,
      m, hm, hcond.1.1.1.1.1.1.1.1.2, ?_⟩⟩
  · exact hcond.1.1.1.1.1.1.1.2
  · exact hcond.1.1.1.1.1.1.2
  · exact hcond.1.1.1.1.1.1.1.1.1.1.2
  · simpa using hcond.1.1.2

/-- C7: no row returned by `get_outreach_data` belongs to a withdrawn or
suspended participant — every summary row of the returned participant is
`NOT_WITHDRAWN`/`NOT_SUSPENDED` — and each returned row is backed by a
set member whose `participantOrigin` is in the caller-supplied
allow-list and who belongs to the returned participant.  The referential
integrity the schema guarantees is made explicit: summaries are unique
per participant, a report state's member is the report state's
participant, and a report state matching a viewed row on sample id and
module belongs to the viewed row's participant. -/
theorem c7_outreach_filters (cfg : OutreachConfig) (db : Db) (now : Time)
    (participant_id : Option Nat) (start_date end_date : Option Time)
    (origin : List String) (ev : OutreachRow)
    (hsumuniq : ∀ s1 ∈ db.summaries, ∀ s2 ∈ db.summaries,
      s1.participantId = s2.participantId → s1 = s2)
    (hrs_member : ∀ rs ∈ db.reportStates, ∀ m ∈ db.members,
      m.id = rs.genomic_set_member_id → m.participantId = rs.participant_id)
    (hrs_viewed : ∀ rv ∈ db.resultVieweds, ∀ rs ∈ db.reportStates,
      optEq rs.sample_id rv.sample_id = true → rs.module = rv.module_type →
      rs.participant_id = rv.participant_id)
    (hev : ev ∈ get_outreach_data cfg db now participant_id start_date
      end_date (some origin)) :
    (∀ s ∈ db.summaries, s.participantId = ev.pid →
      s.withdrawalStatus = WithdrawalStatus.NOT_WITHDRAWN ∧
      s.suspensionStatus = SuspensionStatus.NOT_SUSPENDED) ∧
    (∃ m ∈ db.members, m.participantId = ev.pid ∧
      m.participantOrigin ∈ origin) := by
  match origin with
  | [] => exact absurd hev (by simp [get_outreach_data])
  | o :: os =>
    have hmain :
        (∃ ps ∈ db.summaries, ps.participantId = ev.pid ∧
          ps.withdrawalStatus = WithdrawalStatus.NOT_WITHDRAWN ∧
          ps.suspensionStatus = SuspensionStatus.NOT_SUSPENDED) ∧
        (∃ m ∈ db.members, m.participantId = ev.pid ∧
          m.participantOrigin ∈ o :: os) := by
      simp only [get_outreach_data] at hev
      rw [List.mem_append] at hev
      rcases hev with h | h
      · split at h
        · rw [List.mem_append] at h
          rcases h with h | h
          · obtain ⟨r, hr, rfl⟩ := List.mem_map.mp h
            have hr' := (getMaxDecisionLoops_spec _ r hr).1
            exact decisionLoopRows_filters _ _ _ _ _ _ _ r hr'
          · obtain ⟨p, hp, rfl⟩ := List.mem_map.mp h
            exact readyLoopRows_filters _ _ _ _ _ p hp
        · exact absurd h (by simp)
      · split at h
        · rw [List.mem_append] at h
          rcases h with h | h
          · obtain ⟨r, hr, rfl⟩ := List.mem_map.mp h
            obtain ⟨hps, rs, hrs, hrspid, m, hm, hmid, hmor⟩ :=
              resultReadyRows_filters _ _ _ _ _ _ _ r hr
            refine ⟨hps, m, hm, ?_, hmor⟩
            rw [hrs_member rs hrs m hm hmid, hrspid]
            rfl
          · obtain ⟨r, hr, rfl⟩ := List.mem_map.mp h
            obtain ⟨hps, rv, hrv, hrvpid, rs, hrs, hsam, hmod, m, hm,
              hmid, hmor⟩ := resultViewedRows_filters _ _ _ _ _ _ r hr
            refine ⟨hps, m, hm, ?_, hmor⟩
            rw [hrs_member rs hrs m hm hmid,
              hrs_viewed rv hrv rs hrs hsam hmod, hrvpid]
            rfl
        · exact absurd h (by simp)
    obtain ⟨⟨ps, hps, hpspid, hwd, hsus⟩, hmem⟩ := hmain
    refine ⟨?_, hmem⟩
    intro s hs hspid
    have : s = ps := hsumuniq s hs ps hps (by rw [hspid, hpspid])
    rw [this]
    exact ⟨hwd, hsus⟩

/-- The C7 witness store: participant 9, not withdrawn, with one decision
event and a member in the allow-list. -/
def c7Db : Db :=
  { emptyDb with
    summaries := [{ participantId := 9
                    withdrawalStatus := WithdrawalStatus.NOT_WITHDRAWN
                    withdrawalAuthored := none
                    suspensionStatus := SuspensionStatus.NOT_SUSPENDED
                    deceasedStatus := DeceasedStatus.UNSET
                    consentForStudyEnrollment := QuestionnaireStatus.SUBMITTED
                    consentForStudyEnrollmentAuthored := none
                    consentForGenomicsROR := QuestionnaireStatus.SUBMITTED
                    consentForGenomicsRORAuthored := none }]
    members := [{ baseMember with id := 41, participantId := 9, genomeType := "aou_wgs", participantOrigin := "careevolution" }]
    informingLoops := [{ id := 5, participant_id := 9
                         event_type := "informing_loop_decision"
                         module_type := "pgx", decision_value := some "yes"
                         event_authored_time := some 50, created := 3 }] }

/-- C7 witness: the theorem applied at the witness store, whose
projection returns one decision row for participant 9. -/
theorem c7_witness :
    (∀ s ∈ c7Db.summaries,
      s.participantId = (OutreachRow.decision
        { participant_id := 9, module_type := "pgx",
          decision_value := some "yes", id := 5 }).pid →
      s.withdrawalStatus = WithdrawalStatus.NOT_WITHDRAWN ∧
      s.suspensionStatus = SuspensionStatus.NOT_SUSPENDED) ∧
    (∃ m ∈ c7Db.members,
      m.participantId = (OutreachRow.decision
        { participant_id := 9, module_type := "pgx",
          decision_value := some "yes", id := 5 }).pid ∧
      m.participantOrigin ∈ ["careevolution"]) :=
  c7_outreach_filters defaultOutreachConfig c7Db 100 none none none
    ["careevolution"]
    (OutreachRow.decision
      { participant_id := 9, module_type := "pgx",
        decision_value := some "yes", id := 5 })
    (by decide) (by decide) (by decide) (by decide)

end RdrGenomics



